import Mathlib

/-!
# 50-days: viewport-triggered animation scheduler

A shallow embedding of the scheduling code of `assets/js/animations.js` and
`assets/js/execution.js`, with the theorems that settle the scheduler contract.

Conventions of the embedding.

* An `IntersectionObserverEntry` is the pair `(target, isIntersecting)`; a batch is the
  array handed to an observer callback.  `entries[0]` on an empty array is `undefined`, so
  reading `.isIntersecting` from it throws a `TypeError`: callbacks return `Except`.
* Closure variables (`animated`, `startTime`) and the observer's connection status are fields
  of an explicit state record; `setTimeout` and `requestAnimationFrame` calls are recorded in
  the state instead of being executed.
* JavaScript numbers are exact rationals (`ℚ`); rounding error of IEEE doubles is outside the
  embedding.  A division whose divisor may be zero is modelled by `jsDiv`, which yields
  `none` for the non-finite results `Infinity` and `NaN`.
-/

namespace FiftyDays

/-! ## Visibility notifications -/

/-- One `IntersectionObserverEntry`, reduced to the two fields the callbacks read. -/
structure Entry where
  target : String
  isIntersecting : Bool
  deriving DecidableEq, Repr

/-- The `entries` array handed to an observer callback. -/
abbrev Batch := List Entry

/-- Whether `entries[0].isIntersecting` is defined and true. -/
def firstVisible (entries : Batch) : Bool :=
  match entries.head? with
  | some e => e.isIntersecting
  | none => false

/-- Whether some pair of the batch, at any position, reports its target visible. -/
def anyVisible (entries : Batch) : Bool :=
  entries.any (fun e => e.isIntersecting)

/-! ## execution.js: the execution-section observer -/

/-- State closed over by the observer callback of `initExecution`: the `animated` flag, the
number of `animateBars(container)` calls made so far, and whether the observer still
observes the section (`observer.disconnect()` clears it). -/
structure ExecObs where
  animated : Bool
  animateBarsCalls : Nat
  connected : Bool
  deriving DecidableEq, Repr

/-- State right after `observer.observe(section)`. -/
def ExecObs.init : ExecObs :=
  { animated := false, animateBarsCalls := 0, connected := true }

/-- The callback of `initExecution` (execution.js lines 79-85):
`if (entries[0].isIntersecting && !animated) { animated = true; animateBars(container);
observer.disconnect(); }`. -/
def execCallback (s : ExecObs) (entries : Batch) : Except String ExecObs :=
  match entries.head? with
  | none => .error "TypeError: cannot read properties of undefined"
  | some e0 =>
    if e0.isIntersecting && !s.animated then
      .ok { animated := true, animateBarsCalls := s.animateBarsCalls + 1, connected := false }
    else
      .ok s

/-- One invocation of a callback by the host: a thrown error is reported and leaves the
closure state as it was. -/
def invoke {σ : Type} (cb : σ → Batch → Except String σ) (s : σ) (entries : Batch) : σ :=
  match cb s entries with
  | .ok s' => s'
  | .error _ => s

/-- Every batch of the sequence is handed to the callback, whatever the connection status:
this covers deliveries that arrive after `disconnect()`. -/
def deliver {σ : Type} (cb : σ → Batch → Except String σ) (s : σ) (batches : List Batch) : σ :=
  batches.foldl (invoke cb) s

/-- The host's delivery: a batch reaches the callback only while the observer is still
connected; after `observer.disconnect()` nothing is observed and nothing is delivered. -/
def observe {σ : Type} (connected : σ → Bool) (cb : σ → Batch → Except String σ)
    (s : σ) (batches : List Batch) : σ :=
  batches.foldl (fun st b => if connected st then invoke cb st b else st) s

/-! ## animations.js: hero and metric counters -/

/-- Reference to a DOM element: by `id`, or as the `i`-th match of a selector. -/
inductive ElemRef where
  | byId (id : String)
  | nth (selector : String) (i : Nat)
  deriving DecidableEq, Repr

/-- A pending `setTimeout(() => animateCount(el, target), delay)` of `initHeroCounters`;
`target` is the final value written in the call (`none` stands for a value that is not an
integer; the hero counters use none). -/
structure CountTimer where
  delay : Nat
  el : ElemRef
  target : Option ℤ
  deriving DecidableEq, Repr

/-- A pending `setTimeout(() => animateCount(el, parseInt(el.dataset.target, 10)), delay)`
of `initMetricCounters`: the closure holds the element; its `data-target` attribute is read
and parsed by the host only when the timer runs. -/
structure MetricTimer where
  delay : Nat
  el : ElemRef
  deriving DecidableEq, Repr

/-- State of a counter observer with timers of type `τ`: the timers scheduled so far, how
many times the body of the `if` has run, and whether the observer is still connected. -/
structure CounterObs (τ : Type) where
  timers : List τ
  fired : Nat
  connected : Bool
  deriving DecidableEq, Repr

/-- State right after `observer.observe(...)`. -/
def CounterObs.init {τ : Type} : CounterObs τ :=
  { timers := [], fired := 0, connected := true }

/-- The four `setTimeout` calls of `initHeroCounters` (animations.js lines 125-128). -/
def heroTimers : List CountTimer :=
  [ { delay := 800, el := .byId "counter-days", target := some 50 },
    { delay := 900, el := .byId "counter-work", target := some 40 },
    { delay := 1000, el := .byId "counter-zero", target := some 5 },
    { delay := 1100, el := .byId "counter-peak", target := some 8 } ]

/-- The callback of `initHeroCounters` (animations.js lines 123-131):
`if (entries[0].isIntersecting) { setTimeout(...) x4; observer.disconnect(); }`.
It closes over no flag. -/
def heroCallback (s : CounterObs CountTimer) (entries : Batch) :
    Except String (CounterObs CountTimer) :=
  match entries.head? with
  | none => .error "TypeError: cannot read properties of undefined"
  | some e0 =>
    if e0.isIntersecting then
      .ok { timers := s.timers ++ heroTimers, fired := s.fired + 1, connected := false }
    else
      .ok s

/-- The `setTimeout` calls of `initMetricCounters` (animations.js lines 146-148): one per
element of `document.querySelectorAll('.metric-value[data-target]')`, in that order;
`count` is the number of matching elements at the time of the call. -/
def metricTimers (count : Nat) : List MetricTimer :=
  (List.range count).map (fun i =>
    { delay := i * 150, el := .nth ".metric-value[data-target]" i })

/-- The callback of `initMetricCounters` (animations.js lines 144-151).  It closes over no
flag. -/
def metricCallback (count : Nat) (s : CounterObs MetricTimer) (entries : Batch) :
    Except String (CounterObs MetricTimer) :=
  match entries.head? with
  | none => .error "TypeError: cannot read properties of undefined"
  | some e0 =>
    if e0.isIntersecting then
      .ok { timers := s.timers ++ metricTimers count, fired := s.fired + 1,
            connected := false }
    else
      .ok s

/-! ## animations.js: scroll reveal -/

/-- The `classList` of every element, keyed by element. -/
abbrev Dom := String → List String

/-- The method `DOMTokenList.add`: the token is appended unless already present. -/
def classListAdd (tokens : List String) (tok : String) : List String :=
  if tok ∈ tokens then tokens else tokens ++ [tok]

/-- Whether the element carries the `visible` marker. -/
def marked (dom : Dom) (t : String) : Prop := "visible" ∈ dom t

instance (dom : Dom) (t : String) : Decidable (marked dom t) := by
  unfold marked; infer_instance

/-- Body of the `forEach` in `initScrollReveal` (animations.js lines 69-72):
`if (entry.isIntersecting) entry.target.classList.add('visible')`. -/
def revealEntry (dom : Dom) (e : Entry) : Dom :=
  if e.isIntersecting then
    Function.update dom e.target (classListAdd (dom e.target) "visible")
  else dom

/-- The callback of `initScrollReveal`: `entries.forEach(...)`. -/
def revealCallback (dom : Dom) (entries : Batch) : Dom :=
  entries.foldl revealEntry dom

/-- A sequence of batches processed by the scroll-reveal callback. -/
def revealAll (dom : Dom) (batches : List Batch) : Dom :=
  batches.foldl revealCallback dom

/-- Whether the target received a notification with `isIntersecting = true`. -/
def notifiedVisible (batches : List Batch) (t : String) : Prop :=
  ∃ b ∈ batches, ∃ e ∈ b, e.target = t ∧ e.isIntersecting = true

/-! ## animations.js: the numeric ramp -/

/-- The function `Math.round`: the nearest integer, ties towards positive infinity. -/
def mathRound (x : ℚ) : ℤ := ⌊x + 1 / 2⌋

/-- Ease-out quartic, `1 - Math.pow(1 - progress, 4)`. -/
def easeOutQuart (progress : ℚ) : ℚ := 1 - (1 - progress) ^ 4

/-- The expression `Math.min(elapsed / duration, 1)`. -/
def progressOf (elapsed duration : ℚ) : ℚ := min (elapsed / duration) 1

/-- Truthiness of `!startTime`: `null` and `0` are falsy. -/
def notStartTime : Option ℚ → Bool
  | none => true
  | some t => decide (t = 0)

/-- What one call of `step` does: the value of `startTime` after the call, the locals, the
text written, and the number of `requestAnimationFrame(step)` calls made. -/
structure Frame where
  startTime : ℚ
  elapsed : ℚ
  progress : ℚ
  eased : ℚ
  text : ℤ
  requested : Nat
  deriving DecidableEq

/-- The closure `step(timestamp)` of `animateCount` (animations.js lines 96-110). -/
def step (target : ℤ) (duration : ℚ) (startTime : Option ℚ) (timestamp : ℚ) : Frame :=
  let start : ℚ := if notStartTime startTime then timestamp else startTime.getD timestamp
  let elapsed := timestamp - start
  let progress := progressOf elapsed duration
  let eased := easeOutQuart progress
  { startTime := start
    elapsed := elapsed
    progress := progress
    eased := eased
    text := mathRound (eased * target)
    requested := if progress < 1 then 1 else 0 }

/-- The frames of one `animateCount` run: the host calls `step` with the next timestamp for
as long as the previous call requested a frame. -/
def animateFrames (target : ℤ) (duration : ℚ) : Option ℚ → List ℚ → List Frame
  | _, [] => []
  | startTime, t :: ts =>
    let f := step target duration startTime t
    f :: (if f.requested = 0 then [] else animateFrames target duration (some f.startTime) ts)

/-! ## animations.js: the reading progress bar -/

/-- Division of JavaScript numbers: a zero divisor gives `Infinity` or `NaN`, here `none`. -/
def jsDiv (a b : ℚ) : Option ℚ := if b = 0 then none else some (a / b)

/-- The expression `total > 0 ? (scrolled / total) * 100 : 0`. -/
def progressPct (scrolled total : ℚ) : Option ℚ :=
  if total > 0 then (jsDiv scrolled total).map (fun q => q * 100) else some 0

/-- A CSS value written as `number + '%'`. -/
structure Percent where
  number : Option ℚ
  deriving DecidableEq

/-- The scroll listener of `initProgressBar` (animations.js lines 48-53): the value it
assigns to `bar.style.width`. -/
def scrollHandler (scrollY scrollHeight innerHeight : ℚ) : Percent :=
  let scrolled := scrollY
  let total := scrollHeight - innerHeight
  { number := progressPct scrolled total }

/-! ## execution.js: the staggered bars -/

/-- An `.exec-bar` element: its `data-pct` attribute and the text its `style.width`
declaration was last set to. -/
structure Bar where
  dataPct : String
  width : String
  deriving DecidableEq, Repr

/-- A pending `setTimeout` of `animateBars`: its delay in ms and the bar its closure holds,
named by its position in the `querySelectorAll` result. -/
structure BarTimer where
  delay : Nat
  bar : Nat
  deriving DecidableEq, Repr

/-- The function `animateBars(container)` (execution.js lines 47-54): one `setTimeout` per bar
of `container.querySelectorAll('.exec-bar')`, in that order. -/
def animateBars (bars : List Bar) : List BarTimer :=
  bars.mapIdx (fun i _ => { delay := i * 120, bar := i })

/-- The timer body `bar.style.width = bar.dataset.pct + '%'`, run on the bars.  The setter
of `style.width` belongs to the host: `accepts` is the verdict of its CSS parser on the text
assigned, and a text it rejects leaves the declaration as it was. -/
def fireBarTimer (accepts : String → Bool) (bars : List Bar) (t : BarTimer) : List Bar :=
  List.modify
    (fun b => if accepts (b.dataPct ++ "%") then { b with width := b.dataPct ++ "%" } else b)
    t.bar bars

/-- A setter that rejects the one text `bad` and accepts every other text.  With
`bad = "-5%"` it gives the verdict of the CSS parser on the text `-5%`: a negative `width`
is invalid. -/
def rejecting (bad : String) (text : String) : Bool := text != bad

/-! ## data.js and execution.js: the execution rows -/

/-- One entry of `DAYS`. -/
structure DayRecord where
  date : String
  location : String
  phase : String
  sleep : ℚ
  bad : ℚ
  waste : ℚ
  work : ℚ
  mental : String
  log : String
  deriving DecidableEq

/-- The `.exec-row` built for a day: the record it was built from (its date is formatted by
the host locale), the upper-cased state label, the number written to `data-pct`, and the
hours shown. -/
structure ExecRow where
  day : DayRecord
  className : String
  state : String
  pct : ℚ
  hours : ℚ
  deriving DecidableEq

/-- Default value of the parameter `maxWork` of `buildExecRow`. -/
def defaultMaxWork : ℚ := 8

/-- The function `buildExecRow(d, maxWork)` (execution.js lines 21-39). -/
def buildExecRow (d : DayRecord) (maxWork : ℚ) : ExecRow :=
  let pct := (d.work / maxWork) * 100
  { day := d
    className := "exec-row reveal"
    state := d.mental.toUpper
    pct := pct
    hours := d.work }

/-- The rows returned by `initExecution()` (execution.js lines 62-91); `container` tells
whether `#execBars` exists. -/
def initExecution (container : Bool) (days : List DayRecord) : List ExecRow :=
  if !container then []
  else
    let execDays := days.filter (fun d => d.phase == "Execution")
    execDays.map (fun d => buildExecRow d defaultMaxWork)

/-- The dataset of data.js. -/
def DAYS : List DayRecord := [
  ⟨"2026-01-01", "Dhaka", "Collapse", 6, 4, 10, 0, "Passive",
    "Started the year with no direction."⟩,
  ⟨"2026-01-02", "Dhaka", "Collapse", 5, 6, 9, 0, "Drained",
    "Deactivated all social media to force focus."⟩,
  ⟨"2026-01-03", "Dhaka", "Collapse", 0, 8, 12, 0, "Unstable",
    "Stayed out the whole night. Total system failure."⟩,
  ⟨"2026-01-04", "Dhaka", "Collapse", 6, 5, 8, 0, "Passive",
    "Tried to start working but failed to focus."⟩,
  ⟨"2026-01-05", "Dhaka", "Collapse", 4, 7, 11, 0, "Drained",
    "Spent the day roaming aimlessly."⟩,
  ⟨"2026-01-06", "Dhaka", "Collapse", 0, 9, 13, 0, "Destroyed",
    "Second night with zero sleep. Completely exhausted."⟩,
  ⟨"2026-01-07", "Dhaka", "Collapse", 6, 6, 9, 0, "Passive",
    "Recovering sleep but zero execution today."⟩,
  ⟨"2026-01-08", "Dhaka", "Collapse", 5, 4, 8, 0, "Confused",
    "Randomly downloading YouTube videos offline."⟩,
  ⟨"2026-01-09", "Dhaka", "Collapse", 6, 7, 10, 0, "Drained",
    "Stayed outside most of the day with wrong crowd."⟩,
  ⟨"2026-01-10", "Dhaka", "Collapse", 0, 8, 14, 0, "Unstable",
    "Third night without sleep. Routine is broken."⟩,
  ⟨"2026-01-11", "Dhaka", "Collapse", 7, 5, 7, 0, "Passive",
    "Made a minor attempt at coding but gave up."⟩,
  ⟨"2026-01-12", "Dhaka", "Collapse", 6, 6, 9, 0, "Drained",
    "No meaningful action taken today."⟩,
  ⟨"2026-01-13", "Dhaka", "Collapse", 5, 8, 10, 0, "Destroyed",
    "Heavy exposure to bad company influence."⟩,
  ⟨"2026-01-14", "Dhaka", "Collapse", 6, 6, 7, 0, "Confused",
    "Opened VS Code but immediately closed it."⟩,
  ⟨"2026-01-15", "Dhaka", "Collapse", 6, 7, 9, 0, "Drained",
    "Mentally stuck and unable to execute."⟩,
  ⟨"2026-01-16", "Dhaka", "Collapse", 4, 6, 10, 0, "Passive",
    "Mostly idle. No motivation to build."⟩,
  ⟨"2026-01-17", "Dhaka", "Collapse", 0, 9, 13, 0, "Destroyed",
    "Lost all discipline again."⟩,
  ⟨"2026-01-18", "Dhaka", "Collapse", 7, 5, 8, 0, "Confused",
    "Tried to learn something new but got distracted."⟩,
  ⟨"2026-01-19", "Dhaka", "Collapse", 6, 7, 9, 0, "Drained",
    "Another day of full digital waste."⟩,
  ⟨"2026-01-20", "Dhaka", "Collapse", 6, 6, 8, 0, "Passive",
    "Random wandering around the city."⟩,
  ⟨"2026-01-21", "Dhaka", "Collapse", 5, 8, 11, 0, "Destroyed",
    "Heavy influence exposure drained my energy."⟩,
  ⟨"2026-01-22", "Dhaka", "Collapse", 6, 7, 9, 0, "Drained",
    "Zero progress on any goals."⟩,
  ⟨"2026-01-23", "Dhaka", "Collapse", 6, 6, 7, 0, "Confused",
    "Tried planning out the next steps but no action."⟩,
  ⟨"2026-01-24", "Dhaka", "Collapse", 4, 7, 10, 0, "Passive",
    "No system in place to guide my day."⟩,
  ⟨"2026-01-25", "Dhaka", "Collapse", 0, 8, 12, 0, "Destroyed",
    "Mental low point. Need to escape this environment."⟩,
  ⟨"2026-01-26", "Dhaka", "Collapse", 6, 6, 7, 0, "Confused",
    "Actively thinking about leaving the city to reset."⟩,
  ⟨"2026-01-27", "Coxs Bazar", "Reset", 5, 2, 6, 0, "Reflective",
    "Traveled to Cox's Bazar to escape bad habits."⟩,
  ⟨"2026-01-28", "Coxs Bazar", "Reset", 8, 0, 3, 0, "Overshadowed",
    "Walking by the sea. Finally got 8 hours of sleep."⟩,
  ⟨"2026-01-29", "Coxs Bazar", "Reset", 8, 0, 2, 0, "Reflective",
    "Deep life reflection and journaling. Zero bad influence."⟩,
  ⟨"2026-01-30", "Train", "Reset", 4, 0, 5, 0, "Tired",
    "Took the train back to Dhaka."⟩,
  ⟨"2026-01-31", "Dhaka", "Relapse", 6, 4, 6, 0, "Confused",
    "Back in the city. Trying to keep my distance from bad habits."⟩,
  ⟨"2026-02-01", "Dhaka", "Relapse", 6, 3, 6, 0, "Neutral",
    "Last day successfully keeping social media off."⟩,
  ⟨"2026-02-02", "Dhaka", "Relapse", 5, 5, 8, 0, "Relapsed",
    "Reopened social media. Immediate waste of time."⟩,
  ⟨"2026-02-03", "Dhaka", "Relapse", 6, 6, 9, 0, "Drained",
    "Full scrolling relapse."⟩,
  ⟨"2026-02-04", "Dhaka", "Relapse", 6, 5, 7, 0, "Conflicted",
    "Trying to regain control over my attention."⟩,
  ⟨"2026-02-05", "Dhaka", "Relapse", 4, 6, 9, 0, "Passive",
    "Slipping back into old habits. No discipline."⟩,
  ⟨"2026-02-06", "Dhaka", "Relapse", 0, 7, 12, 0, "Destroyed",
    "Mental exhaustion. Zero sleep."⟩,
  ⟨"2026-02-07", "Dhaka", "Relapse", 6, 6, 8, 0, "Drained",
    "Still stuck in the relapse loop."⟩,
  ⟨"2026-02-08", "Dhaka", "Relapse", 6, 5, 7, 0, "Confused",
    "Made a small attempt to get back on track."⟩,
  ⟨"2026-02-09", "Dhaka", "Relapse", 5, 6, 9, 0, "Passive",
    "No real progress. Just wasting hours."⟩,
  ⟨"2026-02-10", "Dhaka", "Relapse", 6, 4, 6, 0, "Reflective",
    "Thinking seriously about total detachment again."⟩,
  ⟨"2026-02-11", "Dhaka", "Relapse", 6, 5, 8, 0, "Conflicted",
    "The realization that I must change is growing strong."⟩,
  ⟨"2026-02-12", "Dhaka", "Execution", 4, 2, 4, 1, "Determined",
    "TURNING POINT: Made the firm decision to detach from bad influence."⟩,
  ⟨"2026-02-13", "Dhaka", "Execution", 7, 0, 2, 3, "Focused",
    "First real day of focus. Built the AvoyOS skeleton."⟩,
  ⟨"2026-02-14", "Dhaka", "Execution", 8, 0, 1, 4, "Clear",
    "Bad influences cut off entirely. Coding dashboard logic."⟩,
  ⟨"2026-02-15", "Dhaka", "Execution", 7, 0, 1, 5, "Driven",
    "Sleep is stable. Deep work feels natural now."⟩,
  ⟨"2026-02-16", "Dhaka", "Execution", 8, 0, 0, 6, "Optimized",
    "Full execution mode. No social media."⟩,
  ⟨"2026-02-17", "Dhaka", "Execution", 7, 0, 1, 6, "Focused",
    "Refining the CSS and UI. Environment is finally controlled."⟩,
  ⟨"2026-02-18", "Dhaka", "Execution", 8, 0, 0, 7, "Peak",
    "Max output. System is working exactly as intended."⟩,
  ⟨"2026-02-19", "Dhaka", "Execution", 8, 0, 0, 8, "Unstoppable",
    "Project completed. 50-day turnaround achieved."⟩
]

/-! ## Property lookup on object literals -/

/-- Result of reading `table[key]` on an object literal: `undefined`, the value of an own
property, or a member inherited from `Object.prototype` (a function or object, named by its
key). -/
inductive PropValue (α : Type) where
  | undefined
  | own (v : α)
  | inherited (name : String)
  deriving DecidableEq, Repr

/-- Names every object literal inherits from `Object.prototype`. -/
def objectPrototypeMembers : List String :=
  ["constructor", "hasOwnProperty", "isPrototypeOf", "propertyIsEnumerable",
   "toLocaleString", "toString", "valueOf", "__proto__", "__defineGetter__",
   "__defineSetter__", "__lookupGetter__", "__lookupSetter__"]

/-- The expression `table[key]` for an object literal given by its own properties. -/
def getProp {α : Type} (table : List (String × α)) (key : String) : PropValue α :=
  match table.lookup key with
  | some v => .own v
  | none => if key ∈ objectPrototypeMembers then .inherited key else .undefined

/-- The expression `value || fallback` for a string-valued table: `undefined` and the empty
string are falsy. -/
def orElse (value : PropValue String) (fallback : String) : PropValue String :=
  match value with
  | .undefined => .own fallback
  | .own v => if v = "" then .own fallback else .own v
  | .inherited name => .inherited name

/-! ## mindmap.js -/

/-- The table `STATE_COLORS` (mindmap.js lines 25-44). -/
def STATE_COLORS : List (String × String) :=
  [("Passive", "#1a1a1a"), ("Drained", "#1a3a4a"), ("Unstable", "#5c1a1a"),
   ("Destroyed", "#8b0000"), ("Confused", "#2a2a4a"), ("Reflective", "#1a3a2a"),
   ("Overshadowed", "#0a2a2a"), ("Tired", "#2a2222"), ("Neutral", "#1e2a1e"),
   ("Relapsed", "#4a2a00"), ("Conflicted", "#3a2a1a"), ("Determined", "#1a3a00"),
   ("Focused", "#2a5a00"), ("Clear", "#3a7a00"), ("Driven", "#5a9a00"),
   ("Optimized", "#7aba00"), ("Peak", "#a0d400"), ("Unstoppable", "#c8ff00")]

/-- The value assigned to `cell.style.background` (mindmap.js line 59):
`STATE_COLORS[d.mental] || '#1a1a1a'`. -/
def cellBackground (mental : String) : PropValue String :=
  orElse (getProp STATE_COLORS mental) "#1a1a1a"

/-- The text of a template literal `2px solid ${colour}`, with the interpolated value kept
apart from the fixed words. -/
structure Outline where
  width : String
  style : String
  colour : PropValue String
  deriving DecidableEq, Repr

/-- The value the click listener assigns to `cell.style.outline` (mindmap.js line 73):
the template `2px solid ${STATE_COLORS[d.mental]}`. -/
def clickOutline (mental : String) : Outline :=
  { width := "2px", style := "solid", colour := getProp STATE_COLORS mental }

/-- A `.state-cell` built by `buildMindmap`: its record (the date of the tooltip is formatted
by the host locale), its background and the outline its click listener sets. -/
structure StateCell where
  day : DayRecord
  className : String
  background : PropValue String
  border : String
  outlineOnClick : Outline
  deriving DecidableEq

/-- The cells appended by `buildMindmap()` (mindmap.js lines 50-79); `grid` tells whether
`#stateGrid` exists. -/
def buildMindmap (grid : Bool) (days : List DayRecord) : List StateCell :=
  if !grid then []
  else
    days.map (fun d =>
      { day := d
        className := "state-cell"
        background := cellBackground d.mental
        border := "1px solid rgba(255,255,255,.04)"
        outlineOnClick := clickOutline d.mental })

/-- Loop state of `buildLegend`: the set `seen` and the array `states`. -/
structure LegendLoop where
  seen : List String
  states : List String
  deriving DecidableEq, Repr

/-- Body of the `DAYS.forEach` of `buildLegend` (mindmap.js lines 93-96). -/
def legendStep (st : LegendLoop) (d : DayRecord) : LegendLoop :=
  if !(st.seen.contains d.mental) then
    { seen := d.mental :: st.seen, states := st.states ++ [d.mental] }
  else st

/-- The array `states` of `buildLegend` after the loop over the dataset. -/
def legendStates (days : List DayRecord) : List String :=
  (days.foldl legendStep { seen := [], states := [] }).states

/-- The background of a legend dot (mindmap.js line 103):
`STATE_COLORS[state] || '#1a1a1a'`. -/
def legendDot (state : String) : PropValue String :=
  orElse (getProp STATE_COLORS state) "#1a1a1a"

/-- A `.legend-item` built by `buildLegend`. -/
structure LegendItem where
  state : String
  dot : PropValue String
  deriving DecidableEq, Repr

/-- The items appended by `buildLegend()` (mindmap.js lines 85-108); `legend` tells whether
`#stateLegend` exists. -/
def buildLegend (legend : Bool) (days : List DayRecord) : List LegendItem :=
  if !legend then []
  else (legendStates days).map (fun state => { state := state, dot := legendDot state })

/-! ## story.js -/

/-- One item of `KEY_ENTRIES`. -/
structure CuratedEntry where
  idx : Nat
  type : String
  title : String
  deriving DecidableEq, Repr

/-- The table `KEY_ENTRIES` (story.js lines 26-36). -/
def KEY_ENTRIES : List CuratedEntry :=
  [ ⟨2, "low", "Day 3 — System Failure"⟩,
    ⟨9, "low", "Day 10 — Third Sleepless Night"⟩,
    ⟨24, "low", "Day 25 — Mental Low Point"⟩,
    ⟨27, "normal", "Day 28 — Cox's Bazar"⟩,
    ⟨30, "normal", "Day 31 — Back in the City"⟩,
    ⟨33, "normal", "Day 34 — Full Relapse"⟩,
    ⟨42, "milestone", "Day 43 — The Decision"⟩,
    ⟨44, "milestone", "Day 45 — First Real Code"⟩,
    ⟨49, "milestone", "Day 50 — Project Shipped"⟩ ]

/-- The table `PHASE_TAG_COLORS` (story.js lines 42-47): `bg` and `color` of each phase. -/
def PHASE_TAG_COLORS : List (String × (String × String)) :=
  [("Collapse", ("rgba(255,59,59,.15)", "#ff3b3b")),
   ("Reset", ("rgba(0,212,177,.15)", "#00d4b1")),
   ("Relapse", ("rgba(255,140,0,.15)", "#ff8c00")),
   ("Execution", ("rgba(200,255,0,.15)", "#c8ff00"))]

/-- The phases a record of the dataset may carry (data.js line 8). -/
def PHASES : List String := ["Collapse", "Reset", "Relapse", "Execution"]

/-- A `.story-entry` built by `buildEntry`: the class name, the record it reads (its date is
formatted by the host locale), the tag colours and the authored title. -/
structure StoryEl where
  className : String
  day : DayRecord
  tagBg : PropValue String
  tagColor : PropValue String
  title : String
  text : String
  deriving DecidableEq

/-- The function `buildEntry(entry, d)` (story.js lines 56-85); `d = none` is `undefined`.
Reading `d.date` from `undefined`, or `pc.bg` from an `undefined` colour pair, throws. -/
def buildEntry (entry : CuratedEntry) (d : Option DayRecord) : Except String StoryEl :=
  match d with
  | none => .error "TypeError: cannot read properties of undefined (reading date)"
  | some d =>
    match getProp PHASE_TAG_COLORS d.phase with
    | .undefined => .error "TypeError: cannot read properties of undefined (reading bg)"
    | .own pc =>
      .ok { className := "story-entry " ++ entry.type, day := d, tagBg := .own pc.1,
            tagColor := .own pc.2, title := entry.title, text := d.log }
    | .inherited _ =>
      .ok { className := "story-entry " ++ entry.type, day := d, tagBg := .undefined,
            tagColor := .undefined, title := entry.title, text := d.log }

/-- What a run of `initStory` leaves behind: the elements appended to the feed, and the
error thrown, if any; the array is returned only when nothing was thrown. -/
structure StoryRun where
  appended : List StoryEl
  thrown : Option String
  deriving DecidableEq

/-- The `KEY_ENTRIES.map(...)` of `initStory` (story.js lines 97-102): each entry looks up
`DAYS[entry.idx]`, builds its element and appends it; an error ends the loop. -/
def storyLoop (days : List DayRecord) : List CuratedEntry → StoryRun
  | [] => { appended := [], thrown := none }
  | entry :: rest =>
    match buildEntry entry days[entry.idx]? with
    | .error msg => { appended := [], thrown := some msg }
    | .ok el =>
      let r := storyLoop days rest
      { appended := el :: r.appended, thrown := r.thrown }

/-- The function `initStory()` (story.js lines 93-105); `feed` tells whether `#storyFeed`
exists. -/
def initStory (feed : Bool) (days : List DayRecord) (entries : List CuratedEntry) : StoryRun :=
  if !feed then { appended := [], thrown := none }
  else storyLoop days entries

/-! ## charts.js: the phase bands -/

/-- An item of the array `regions` of `phaseBgPlugin.beforeDraw`. -/
structure Region where
  x : Nat
  phase : String
  deriving DecidableEq, Repr

/-- Loop state of the first `forEach` of `beforeDraw`: `regions` and `prevPhase`
(`none` is `null`). -/
structure RegionLoop where
  regions : List Region
  prevPhase : Option String
  deriving DecidableEq, Repr

/-- Body of `DAYS.forEach((d, i) => ...)` (charts.js lines 46-49). -/
def regionStep (st : RegionLoop) (i : Nat) (d : DayRecord) : RegionLoop :=
  if some d.phase ≠ st.prevPhase then
    { regions := st.regions ++ [{ x := i, phase := d.phase }], prevPhase := some d.phase }
  else st

/-- The loop `DAYS.forEach((d, i) => ...)`, from index `i` on. -/
def regionLoop : Nat → RegionLoop → List DayRecord → RegionLoop
  | _, st, [] => st
  | i, st, d :: ds => regionLoop (i + 1) (regionStep st i d) ds

/-- The array `regions` after the loop (charts.js lines 43-50). -/
def phaseRegions (days : List DayRecord) : List Region :=
  (regionLoop 0 { regions := [], prevPhase := none } days).regions

/-- The table `phaseColors` (charts.js lines 52-57). -/
def phaseColors : List (String × String) :=
  [("Collapse", "rgba(255,59,59,.08)"), ("Reset", "rgba(0,212,177,.08)"),
   ("Relapse", "rgba(255,140,0,.08)"), ("Execution", "rgba(200,255,0,.08)")]

/-- One filled band: the locals `start` and `end` of the second `forEach` (`stop` stands for
`end`), in index coordinates, and the fill style. -/
structure Band where
  start : Nat
  stop : Nat
  fillStyle : PropValue String
  deriving DecidableEq, Repr

/-- The bands drawn by `regions.forEach((region, i) => ...)` (charts.js lines 59-67):
`end = i + 1 < regions.length ? regions[i + 1].x : DAYS.length - 1`.  The loop body runs only
when the dataset is not empty, so `DAYS.length - 1` is never negative. -/
def phaseBands (days : List DayRecord) : List Band :=
  let regions := phaseRegions days
  regions.mapIdx (fun i region =>
    { start := region.x
      stop := if h : i + 1 < regions.length then (regions.get ⟨i + 1, h⟩).x
              else days.length - 1
      fillStyle := getProp phaseColors region.phase })

/-- Whether a region has to start at index `i`: a record is there, and it is the first
record or its phase differs from the phase of the record before it. -/
def phaseChangesAt (days : List DayRecord) (i : Nat) : Prop :=
  ∃ d, days[i]? = some d ∧ (i = 0 ∨ days[i - 1]?.map (fun r => r.phase) ≠ some d.phase)

/-- The phase the loop compares the record at offset `j` with: the value of `prevPhase` at
the start for `j = 0`, the phase of the record before it otherwise. -/
def phaseBefore (prev : Option String) (ds : List DayRecord) : Nat → Option String
  | 0 => prev
  | j + 1 => ds[j]?.map (fun r => r.phase)

/-! ## Mount points -/

/-- The part of the document the init functions test: the ids present, and the number of
elements matching the interactive selectors of `initCursor`. -/
structure Page where
  ids : List String
  interactive : Nat
  deriving DecidableEq, Repr

/-- Whether `document.getElementById(id)` is not `null`. -/
def Page.has (p : Page) (id : String) : Bool := p.ids.contains id

/-- A registration or construction made by an init function. -/
inductive Effect where
  | listenDocument (event : String)
  | listen (el : ElemRef) (event : String)
  | observe (el : ElemRef)
  | chart (canvas : String)
  deriving DecidableEq, Repr

/-- What a call of an init function did, and the error it threw, if any. -/
structure Outcome where
  effects : List Effect
  thrown : Option String
  deriving DecidableEq, Repr

/-- The outcome of a function that returned at its guard. -/
def Outcome.skipped : Outcome := { effects := [], thrown := none }

/-- The function `initCursor()` (animations.js lines 20-36). -/
def initCursor (p : Page) : Outcome :=
  if !p.has "cursor" then Outcome.skipped
  else
    { effects := .listenDocument "mousemove" ::
        ((List.range p.interactive).map (fun i =>
          [Effect.listen (.nth "a, button, .phase-card, .state-cell, .conclusion-cta" i)
             "mouseenter",
           Effect.listen (.nth "a, button, .phase-card, .state-cell, .conclusion-cta" i)
             "mouseleave"])).flatten
      thrown := none }

/-- The function `initProgressBar()` (animations.js lines 44-54). -/
def initProgressBar (p : Page) : Outcome :=
  if !p.has "progress-bar" then Outcome.skipped
  else { effects := [.listenDocument "scroll"], thrown := none }

/-- The function `initHeroCounters()` (animations.js lines 119-134), up to
`observer.observe(hero)`. -/
def initHeroCounters (p : Page) : Outcome :=
  if !p.has "hero" then Outcome.skipped
  else { effects := [.observe (.byId "hero")], thrown := none }

/-- The function `initMetricCounters()` (animations.js lines 140-154), up to
`observer.observe(metrics)`. -/
def initMetricCounters (p : Page) : Outcome :=
  if !p.has "metrics" then Outcome.skipped
  else { effects := [.observe (.byId "metrics")], thrown := none }

/-- The observer part of `initExecution()` (execution.js lines 63-64 and 76-88): the section
is observed when `#execBars` and `#execution-section` both exist. -/
def initExecutionObserver (p : Page) : Outcome :=
  if !p.has "execBars" then Outcome.skipped
  else if p.has "execution-section" then
    { effects := [.observe (.byId "execution-section")], thrown := none }
  else Outcome.skipped

/-- The function `initCharts()` (charts.js lines 93-238), called with `Chart` defined: each
`document.getElementById(id).getContext('2d')` reads `getContext` from `null` when the
canvas is absent, which throws. -/
def initCharts (p : Page) : Outcome :=
  if !p.has "mainChart" then
    { effects := [],
      thrown := some "TypeError: cannot read properties of null (reading getContext)" }
  else if !p.has "sleepChart" then
    { effects := [.chart "mainChart"],
      thrown := some "TypeError: cannot read properties of null (reading getContext)" }
  else if !p.has "influenceChart" then
    { effects := [.chart "mainChart", .chart "sleepChart"],
      thrown := some "TypeError: cannot read properties of null (reading getContext)" }
  else
    { effects := [.chart "mainChart", .chart "sleepChart", .chart "influenceChart"],
      thrown := none }

/-- The `DOMContentLoaded` handler of main.js (lines 20-46): the names of the init functions
that returned, in call order, and the error that ended the handler, if any. -/
structure Bootstrap where
  completed : List String
  thrown : Option String
  deriving DecidableEq, Repr

/-- The handler of main.js: `initCharts` runs first when `Chart` is defined; an error thrown
by one init function ends the handler, so the later ones do not run. -/
def domContentLoaded (p : Page) (chartDefined : Bool) (days : List DayRecord)
    (entries : List CuratedEntry) : Bootstrap :=
  let charts : Outcome := if chartDefined then initCharts p else Outcome.skipped
  let ranCharts : List String := if chartDefined then ["initCharts"] else []
  match charts.thrown with
  | some msg => { completed := [], thrown := some msg }
  | none =>
    match (initStory (p.has "storyFeed") days entries).thrown with
    | some msg => { completed := ranCharts ++ ["initMindmap"], thrown := some msg }
    | none =>
      { completed := ranCharts ++ ["initMindmap", "initStory", "initExecution",
                                   "initAnimations"],
        thrown := none }

/-! ## Reading the dataset -/

/-- The number read from a run of decimal digits. -/
def digitsToNat (cs : List Char) : Nat :=
  cs.foldl (fun acc c => 10 * acc + (c.toNat - 48)) 0

/-- The calendar day of an ISO 8601 date `YYYY-MM-DD`, as the number `YYYYMMDD`; the order of
these numbers is the order of the days. -/
def isoDayKey (date : String) : Nat :=
  let cs := date.toList
  digitsToNat (cs.take 4) * 10000 + digitsToNat ((cs.drop 5).take 2) * 100 +
    digitsToNat ((cs.drop 8).take 2)

/-- Position of a phase in the order Collapse, Reset, Relapse, Execution. -/
def phaseRank (phase : String) : Nat := PHASES.indexOf phase

/-! ## One-shot observers -/

theorem invoke_exec_of_animated (s : ExecObs) (b : Batch) (h : s.animated = true) :
    invoke execCallback s b = s := by
  unfold invoke execCallback
  cases hb : b.head? with
  | none => simp
  | some e0 => simp [h]

theorem invoke_exec_of_not_first (s : ExecObs) (b : Batch) (h : firstVisible b = false) :
    invoke execCallback s b = s := by
  unfold firstVisible at h
  unfold invoke execCallback
  cases hb : b.head? with
  | none => simp
  | some e0 =>
    rw [hb] at h
    simp at h
    simp [h]

theorem invoke_exec_of_first (s : ExecObs) (b : Batch) (h : firstVisible b = true)
    (hs : s.animated = false) :
    invoke execCallback s b =
      { animated := true, animateBarsCalls := s.animateBarsCalls + 1, connected := false } := by
  unfold firstVisible at h
  unfold invoke execCallback
  cases hb : b.head? with
  | none => rw [hb] at h; simp at h
  | some e0 =>
    rw [hb] at h
    simp at h
    simp [h, hs]

theorem deliver_exec_of_animated (s : ExecObs) (batches : List Batch) (h : s.animated = true) :
    deliver execCallback s batches = s := by
  induction batches with
  | nil => rfl
  | cons b bs ih =>
    show deliver execCallback (invoke execCallback s b) bs = s
    rw [invoke_exec_of_animated s b h]
    exact ih

/-- From a state whose flag is clear, the run ends with the flag clear and the same number
of calls, or with the flag set and exactly one more call. -/
theorem deliver_exec_cases (batches : List Batch) (s : ExecObs) (hs : s.animated = false) :
    ((deliver execCallback s batches).animated = false ∧
        (deliver execCallback s batches).animateBarsCalls = s.animateBarsCalls ∧
        ∀ b ∈ batches, firstVisible b = false) ∨
      ((deliver execCallback s batches).animated = true ∧
        (deliver execCallback s batches).animateBarsCalls = s.animateBarsCalls + 1 ∧
        ∃ b ∈ batches, firstVisible b = true) := by
  induction batches generalizing s with
  | nil => left; exact ⟨hs, rfl, by simp⟩
  | cons b bs ih =>
    show (_ ∧ _ ∧ _) ∨ (_ ∧ _ ∧ _)
    have hstep : deliver execCallback s (b :: bs) =
        deliver execCallback (invoke execCallback s b) bs := rfl
    rw [hstep]
    cases hb : firstVisible b with
    | false =>
      rw [invoke_exec_of_not_first s b hb]
      rcases ih s hs with ⟨h1, h2, h3⟩ | ⟨h1, h2, b', hb', hv⟩
      · left
        refine ⟨h1, h2, ?_⟩
        intro b' hb'
        rcases List.mem_cons.mp hb' with rfl | hmem
        · exact hb
        · exact h3 b' hmem
      · right
        exact ⟨h1, h2, b', List.mem_cons_of_mem _ hb', hv⟩
    | true =>
      right
      rw [invoke_exec_of_first s b hb hs, deliver_exec_of_animated _ _ rfl]
      exact ⟨rfl, rfl, b, List.mem_cons_self _ _, hb⟩

/-- C1: for every finite sequence of batches handed to the execution-section callback,
whatever the connection status of the observer at each delivery, `animateBars` is invoked at
most once; it has been invoked exactly when the `animated` flag is set. -/
theorem animateBars_invoked_at_most_once (batches : List Batch) :
    (deliver execCallback ExecObs.init batches).animateBarsCalls ≤ 1 ∧
      ((deliver execCallback ExecObs.init batches).animateBarsCalls = 1 ↔
        (deliver execCallback ExecObs.init batches).animated = true) := by
  rcases deliver_exec_cases batches ExecObs.init rfl with ⟨h1, h2, _⟩ | ⟨h1, h2, _⟩
  · rw [h1, h2]; simp [ExecObs.init]
  · rw [h1, h2]; simp [ExecObs.init]

theorem invoke_hero (s : CounterObs CountTimer) (b : Batch) :
    invoke heroCallback s b =
      if firstVisible b then
        { timers := s.timers ++ heroTimers, fired := s.fired + 1, connected := false }
      else s := by
  unfold invoke heroCallback firstVisible
  cases hb : b.head? with
  | none => simp
  | some e0 => cases he : e0.isIntersecting <;> simp [he]

theorem invoke_metric (count : Nat) (s : CounterObs MetricTimer) (b : Batch) :
    invoke (metricCallback count) s b =
      if firstVisible b then
        { timers := s.timers ++ metricTimers count, fired := s.fired + 1,
          connected := false }
      else s := by
  unfold invoke metricCallback firstVisible
  cases hb : b.head? with
  | none => simp
  | some e0 => cases he : e0.isIntersecting <;> simp [he]

theorem observe_of_disconnected {τ : Type}
    (cb : CounterObs τ → Batch → Except String (CounterObs τ))
    (s : CounterObs τ) (batches : List Batch) (h : s.connected = false) :
    observe (fun st => st.connected) cb s batches = s := by
  induction batches with
  | nil => rfl
  | cons b bs ih =>
    show observe (fun st => st.connected) cb
      (if s.connected then invoke cb s b else s) bs = s
    rw [h]
    exact ih

/-- A connected counter observer whose callback fires on a visible first pair and then
disconnects either never fired, or fired once, at the first batch with a visible first
pair. -/
theorem observe_counter_cases {τ : Type}
    (cb : CounterObs τ → Batch → Except String (CounterObs τ))
    (effect : List τ)
    (hcb : ∀ s b, invoke cb s b =
      if firstVisible b then
        { timers := s.timers ++ effect, fired := s.fired + 1, connected := false }
      else s)
    (batches : List Batch) (s : CounterObs τ) (hs : s.connected = true) :
    (observe (fun st => st.connected) cb s batches = s ∧
        ∀ b ∈ batches, firstVisible b = false) ∨
      (observe (fun st => st.connected) cb s batches =
          { timers := s.timers ++ effect, fired := s.fired + 1, connected := false } ∧
        ∃ b ∈ batches, firstVisible b = true) := by
  induction batches with
  | nil => left; exact ⟨rfl, by simp⟩
  | cons b bs ih =>
    have hstep : observe (fun st => st.connected) cb s (b :: bs) =
        observe (fun st => st.connected) cb (invoke cb s b) bs := by
      show observe (fun st => st.connected) cb
        (if s.connected then invoke cb s b else s) bs = _
      rw [hs]; rfl
    rw [hstep, hcb s b]
    cases hb : firstVisible b with
    | false =>
      simp only [Bool.false_eq_true, if_false]
      rcases ih with ⟨h1, h2⟩ | ⟨h1, b', hb', hv⟩
      · left
        refine ⟨h1, ?_⟩
        intro b' hb'
        rcases List.mem_cons.mp hb' with rfl | hmem
        · exact hb
        · exact h2 b' hmem
      · right
        exact ⟨h1, b', List.mem_cons_of_mem _ hb', hv⟩
    | true =>
      right
      simp only [if_true]
      exact ⟨observe_of_disconnected cb _ bs rfl, b, List.mem_cons_self _ _, hb⟩

/-- C2: the hero callback and the metrics callback keep no flag.  Called twice with a batch
whose first pair is visible, each runs its scheduling body twice, so every hero counter has
two pending animations (delays 800, 900, 1000, 1100 twice) and every metric element two
timers: the animations are not scheduled at most once. -/
theorem counter_callbacks_fire_on_every_visible_delivery :
    ¬ ((deliver heroCallback CounterObs.init
          [[⟨"hero", true⟩], [⟨"hero", true⟩]]).fired ≤ 1) ∧
      ¬ ((deliver (metricCallback 2) CounterObs.init
          [[⟨"metrics", true⟩], [⟨"metrics", true⟩]]).fired ≤ 1) ∧
      (deliver heroCallback CounterObs.init
          [[⟨"hero", true⟩], [⟨"hero", true⟩]]).timers = heroTimers ++ heroTimers ∧
      (deliver (metricCallback 2) CounterObs.init
          [[⟨"metrics", true⟩], [⟨"metrics", true⟩]]).timers =
        metricTimers 2 ++ metricTimers 2 := by
  refine ⟨by decide, by decide, by decide, by decide⟩

/-- While batches reach the callback only as long as the observer is connected, the hero
callback and the metrics callback schedule their timers at most once: what stops a second
run is `observer.disconnect()`, not a flag. -/
theorem counters_scheduled_at_most_once_while_connected (count : Nat)
    (batches : List Batch) :
    ((observe (fun st => st.connected) heroCallback CounterObs.init batches).fired ≤ 1 ∧
      ((observe (fun st => st.connected) heroCallback CounterObs.init batches).timers = [] ∨
        (observe (fun st => st.connected) heroCallback CounterObs.init batches).timers =
          heroTimers)) ∧
    ((observe (fun st => st.connected) (metricCallback count)
        CounterObs.init batches).fired ≤ 1 ∧
      ((observe (fun st => st.connected) (metricCallback count)
          CounterObs.init batches).timers = [] ∨
        (observe (fun st => st.connected) (metricCallback count)
          CounterObs.init batches).timers = metricTimers count)) := by
  constructor
  · rcases observe_counter_cases heroCallback heroTimers invoke_hero batches
      CounterObs.init rfl with ⟨h, _⟩ | ⟨h, _⟩
    · rw [h]; simp [CounterObs.init]
    · rw [h]; simp [CounterObs.init]
  · rcases observe_counter_cases (metricCallback count) (metricTimers count)
      (invoke_metric count) batches CounterObs.init rfl with ⟨h, _⟩ | ⟨h, _⟩
    · rw [h]; simp [CounterObs.init]
    · rw [h]; simp [CounterObs.init]

/-- C3: the one-shot handlers test `entries[0]` only.  A batch that reports the section not
visible in its first pair and visible in its second pair leaves the execution handler, the
hero handler and the metrics handler without any effect, and their observers connected: the
effect fires zero times, not once. -/
theorem visible_pair_after_first_is_ignored :
    (∃ b ∈ [[(⟨"execution-section", false⟩ : Entry), ⟨"execution-section", true⟩]],
        anyVisible b = true) ∧
      (deliver execCallback ExecObs.init
        [[⟨"execution-section", false⟩, ⟨"execution-section", true⟩]]).animateBarsCalls = 0 ∧
      (deliver execCallback ExecObs.init
        [[⟨"execution-section", false⟩, ⟨"execution-section", true⟩]]).connected = true ∧
      (deliver heroCallback CounterObs.init
        [[⟨"hero", false⟩, ⟨"hero", true⟩]]).fired = 0 ∧
      (deliver (metricCallback 2) CounterObs.init
        [[⟨"metrics", false⟩, ⟨"metrics", true⟩]]).fired = 0 := by
  refine ⟨⟨_, List.mem_singleton.mpr rfl, by decide⟩, by decide, by decide, by decide,
    by decide⟩

/-- When some batch has a visible first pair, the effect fires exactly once: for the
execution handler on every delivered sequence, for the hero and metrics handlers when
batches are delivered only while the observer is connected. -/
theorem one_shot_fires_once_on_first_pair (count : Nat) (batches : List Batch)
    (h : ∃ b ∈ batches, firstVisible b = true) :
    (deliver execCallback ExecObs.init batches).animateBarsCalls = 1 ∧
      (observe (fun st => st.connected) heroCallback CounterObs.init batches).fired = 1 ∧
      (observe (fun st => st.connected) (metricCallback count)
        CounterObs.init batches).fired = 1 := by
  obtain ⟨b, hb, hv⟩ := h
  refine ⟨?_, ?_, ?_⟩
  · rcases deliver_exec_cases batches ExecObs.init rfl with ⟨_, _, h3⟩ | ⟨_, h2, _⟩
    · rw [h3 b hb] at hv; cases hv
    · rw [h2]; rfl
  · rcases observe_counter_cases heroCallback heroTimers invoke_hero batches
      CounterObs.init rfl with ⟨_, h2⟩ | ⟨h1, _⟩
    · rw [h2 b hb] at hv; cases hv
    · rw [h1]; rfl
  · rcases observe_counter_cases (metricCallback count) (metricTimers count)
      (invoke_metric count) batches CounterObs.init rfl with ⟨_, h2⟩ | ⟨h1, _⟩
    · rw [h2 b hb] at hv; cases hv
    · rw [h1]; rfl

/-! ## Scroll reveal -/

theorem visible_mem_classListAdd (tokens : List String) :
    "visible" ∈ classListAdd tokens "visible" := by
  unfold classListAdd
  split
  · assumption
  · simp

theorem marked_revealEntry (dom : Dom) (e : Entry) (t : String) :
    marked (revealEntry dom e) t ↔ marked dom t ∨ (e.target = t ∧ e.isIntersecting = true) := by
  unfold revealEntry marked
  cases he : e.isIntersecting with
  | false => simp
  | true =>
    simp only [if_true, and_true]
    by_cases ht : t = e.target
    · subst ht
      simp [Function.update_same, visible_mem_classListAdd]
    · rw [Function.update_noteq ht]
      constructor
      · intro h; exact Or.inl h
      · rintro (h | h)
        · exact h
        · exact absurd h.symm ht

theorem marked_revealCallback (b : Batch) (dom : Dom) (t : String) :
    marked (revealCallback dom b) t ↔
      marked dom t ∨ ∃ e ∈ b, e.target = t ∧ e.isIntersecting = true := by
  induction b generalizing dom with
  | nil => simp [revealCallback]
  | cons e es ih =>
    have hstep : revealCallback dom (e :: es) = revealCallback (revealEntry dom e) es := rfl
    rw [hstep, ih, marked_revealEntry]
    simp only [List.mem_cons, exists_eq_or_imp]
    tauto

theorem marked_revealAll (batches : List Batch) (dom : Dom) (t : String) :
    marked (revealAll dom batches) t ↔ marked dom t ∨ notifiedVisible batches t := by
  induction batches generalizing dom with
  | nil => simp [revealAll, notifiedVisible]
  | cons b bs ih =>
    have hstep : revealAll dom (b :: bs) = revealAll (revealCallback dom b) bs := rfl
    rw [hstep, ih, marked_revealCallback]
    unfold notifiedVisible
    simp only [List.mem_cons, exists_eq_or_imp]
    exact or_assoc

theorem revealEntry_of_marked (dom : Dom) (e : Entry)
    (h : e.isIntersecting = true → marked dom e.target) : revealEntry dom e = dom := by
  unfold revealEntry
  cases he : e.isIntersecting with
  | false => simp
  | true =>
    have hm : "visible" ∈ dom e.target := h he
    simp [classListAdd, hm]

theorem revealCallback_of_marked (b : Batch) (dom : Dom)
    (h : ∀ e ∈ b, e.isIntersecting = true → marked dom e.target) :
    revealCallback dom b = dom := by
  induction b with
  | nil => rfl
  | cons e es ih =>
    have hstep : revealCallback dom (e :: es) = revealCallback (revealEntry dom e) es := rfl
    rw [hstep, revealEntry_of_marked dom e (h e (List.mem_cons_self _ _))]
    exact ih (fun e' he' => h e' (List.mem_cons_of_mem _ he'))

/-- C4: after any sequence of batches the scroll-reveal callback has marked exactly the
initially marked targets and those notified visible at least once; a notification with
`isIntersecting = false` changes nothing, and processing a visible notification, or a whole
batch, a second time changes nothing. -/
theorem reveal_marker_only_grows (dom : Dom) (batches : List Batch) (b : Batch) (e : Entry)
    (t : String) :
    (marked (revealAll dom batches) t ↔ marked dom t ∨ notifiedVisible batches t) ∧
      revealEntry dom ⟨t, false⟩ = dom ∧
      revealEntry (revealEntry dom e) e = revealEntry dom e ∧
      revealCallback (revealCallback dom b) b = revealCallback dom b := by
  refine ⟨marked_revealAll batches dom t, rfl, ?_, ?_⟩
  · apply revealEntry_of_marked
    intro he
    exact (marked_revealEntry dom e e.target).mpr (Or.inr ⟨rfl, he⟩)
  · apply revealCallback_of_marked
    intro e' he' hv
    exact (marked_revealCallback b dom e'.target).mpr (Or.inr ⟨e', he', rfl, hv⟩)

/-! ## The numeric ramp -/

theorem mathRound_intCast (n : ℤ) : mathRound (n : ℚ) = n := by
  unfold mathRound
  rw [Int.floor_eq_iff]
  constructor
  · linarith
  · linarith

theorem progressOf_of_ge (elapsed duration : ℚ) (hd : 0 < duration) (h : duration ≤ elapsed) :
    progressOf elapsed duration = 1 := by
  unfold progressOf
  apply min_eq_right
  rw [le_div_iff₀ hd]
  linarith

theorem progressOf_of_lt (elapsed duration : ℚ) (hd : 0 < duration) (h : elapsed < duration) :
    progressOf elapsed duration < 1 := by
  unfold progressOf
  apply min_lt_of_left_lt
  rw [div_lt_iff₀ hd]
  linarith

/-- C5: for an integer final value and a positive duration, a frame of `animateCount` whose
elapsed time has reached the duration has progress 1 and eased value 1, displays exactly the
final value and requests no further frame, so the chain of frames ends there; any earlier
frame has progress below 1 and requests exactly one further frame. -/
theorem animateCount_completes_exactly (target : ℤ) (duration : ℚ) (startTime : Option ℚ)
    (timestamp : ℚ) (rest : List ℚ) (hd : 0 < duration) :
    (if duration ≤ (step target duration startTime timestamp).elapsed then
        (step target duration startTime timestamp).progress = 1 ∧
          (step target duration startTime timestamp).eased = 1 ∧
          (step target duration startTime timestamp).text = target ∧
          (step target duration startTime timestamp).requested = 0 ∧
          animateFrames target duration startTime (timestamp :: rest) =
            [step target duration startTime timestamp]
      else
        (step target duration startTime timestamp).progress < 1 ∧
          (step target duration startTime timestamp).requested = 1 ∧
          animateFrames target duration startTime (timestamp :: rest) =
            step target duration startTime timestamp ::
              animateFrames target duration
                (some (step target duration startTime timestamp).startTime) rest) := by
  split
  next h =>
    have hp : (step target duration startTime timestamp).progress = 1 :=
      progressOf_of_ge _ _ hd h
    have hr : (step target duration startTime timestamp).requested = 0 := by
      show (if (step target duration startTime timestamp).progress < 1 then 1 else 0) = 0
      rw [hp]; simp
    have he : (step target duration startTime timestamp).eased = 1 := by
      show easeOutQuart (step target duration startTime timestamp).progress = 1
      rw [hp]; norm_num [easeOutQuart]
    refine ⟨hp, he, ?_, hr, ?_⟩
    · show mathRound ((step target duration startTime timestamp).eased * target) = target
      rw [he, one_mul]
      exact mathRound_intCast target
    · show step target duration startTime timestamp ::
          (if (step target duration startTime timestamp).requested = 0 then []
            else animateFrames target duration
              (some (step target duration startTime timestamp).startTime) rest) = _
      rw [hr]; simp
  next h =>
    have hp : (step target duration startTime timestamp).progress < 1 :=
      progressOf_of_lt _ _ hd (not_le.mp h)
    have hr : (step target duration startTime timestamp).requested = 1 := by
      show (if (step target duration startTime timestamp).progress < 1 then 1 else 0) = 1
      simp [hp]
    refine ⟨hp, hr, ?_⟩
    show step target duration startTime timestamp ::
        (if (step target duration startTime timestamp).requested = 0 then []
          else animateFrames target duration
            (some (step target duration startTime timestamp).startTime) rest) = _
    rw [hr]; simp

theorem animateCount_completes_exactly_witness :
    (0 : ℚ) < 1600 ∧
      (if (1600 : ℚ) ≤ (step 50 1600 (some 100) 1700).elapsed then
        (step 50 1600 (some 100) 1700).progress = 1 ∧
          (step 50 1600 (some 100) 1700).eased = 1 ∧
          (step 50 1600 (some 100) 1700).text = 50 ∧
          (step 50 1600 (some 100) 1700).requested = 0 ∧
          animateFrames 50 1600 (some 100) (1700 :: [1716]) = [step 50 1600 (some 100) 1700]
      else
        (step 50 1600 (some 100) 1700).progress < 1 ∧
          (step 50 1600 (some 100) 1700).requested = 1 ∧
          animateFrames 50 1600 (some 100) (1700 :: [1716]) =
            step 50 1600 (some 100) 1700 ::
              animateFrames 50 1600 (some (step 50 1600 (some 100) 1700).startTime) [1716]) :=
  ⟨by norm_num, animateCount_completes_exactly 50 1600 (some 100) 1700 [1716] (by norm_num)⟩

/-! ## The reading progress bar -/

/-- C7: the scroll handler writes `scrolled / total * 100` percent when
`total = scrollHeight - innerHeight` is positive and 0 percent otherwise; the number is
always finite, in particular at `total = 0`, because the division is evaluated only for a
positive divisor. -/
theorem progress_bar_percentage (scrollY scrollHeight innerHeight : ℚ) :
    (scrollHandler scrollY scrollHeight innerHeight).number =
        some (if 0 < scrollHeight - innerHeight then
          scrollY / (scrollHeight - innerHeight) * 100 else 0) ∧
      progressPct scrollY 0 = some 0 ∧
      (scrollHandler scrollY innerHeight innerHeight).number = some 0 := by
  refine ⟨?_, ?_, ?_⟩
  · unfold scrollHandler progressPct jsDiv
    by_cases h : 0 < scrollHeight - innerHeight
    · have hne : scrollHeight - innerHeight ≠ 0 := ne_of_gt h
      simp [h, hne]
    · simp [h]
  · simp [progressPct]
  · simp [scrollHandler, progressPct]

/-! ## The staggered bars -/

theorem animateBars_getElem? (bars : List Bar) (i : Nat) (hi : i < bars.length) :
    (animateBars bars)[i]? = some { delay := i * 120, bar := i } := by
  unfold animateBars
  rw [List.getElem?_mapIdx, List.getElem?_eq_getElem hi]
  rfl

/-- C8, as the claim states it: a bar whose `data-pct` is `-5` keeps its width when its
timer runs, because the host rejects the text `-5%` as a width; the width does not become
the bar's `data-pct` followed by `%`. -/
theorem rejected_width_is_not_set :
    (fireBarTimer (rejecting "-5%") [⟨"-5", "0%"⟩] { delay := 0 * 120, bar := 0 })[0]? =
        some ⟨"-5", "0%"⟩ ∧
      ¬ ((fireBarTimer (rejecting "-5%") [⟨"-5", "0%"⟩] { delay := 0 * 120, bar := 0 })[0]? =
        some ⟨"-5", "-5" ++ "%"⟩) := by
  refine ⟨by decide, by decide⟩

/-- C8, amended: `animateBars` schedules one timer per bar; the timer of the `i`-th bar has
delay `i * 120` ms, so a bar earlier in the list has a strictly smaller delay; when it runs
it assigns that bar's `data-pct` followed by `%` to the width of bar `i`, which takes that
text when the host accepts it and keeps its width otherwise, and it leaves every other bar
as it was. -/
theorem animateBars_staggers_in_index_order (accepts : String → Bool) (bars : List Bar)
    (i : Nat) (hi : i < bars.length) :
    (animateBars bars).length = bars.length ∧
      (animateBars bars)[i]? = some { delay := i * 120, bar := i } ∧
      (∀ j tj, j < i → (animateBars bars)[j]? = some tj → tj.delay + 120 ≤ i * 120) ∧
      (fireBarTimer accepts bars { delay := i * 120, bar := i })[i]? =
        some (if accepts ((bars.get ⟨i, hi⟩).dataPct ++ "%") then
          { dataPct := (bars.get ⟨i, hi⟩).dataPct,
            width := (bars.get ⟨i, hi⟩).dataPct ++ "%" }
          else bars.get ⟨i, hi⟩) ∧
      (∀ j, j ≠ i →
        (fireBarTimer accepts bars { delay := i * 120, bar := i })[j]? = bars[j]?) := by
  refine ⟨by simp [animateBars], animateBars_getElem? bars i hi, ?_, ?_, ?_⟩
  · intro j tj hj htj
    rw [animateBars_getElem? bars j (lt_trans hj hi)] at htj
    cases htj
    show j * 120 + 120 ≤ i * 120
    omega
  · unfold fireBarTimer
    rw [List.getElem?_modify_eq, List.getElem?_eq_getElem hi]
    by_cases ha : accepts (bars[i].dataPct ++ "%") = true
    · simp [ha]
    · simp [ha]
  · intro j hj
    unfold fireBarTimer
    exact List.getElem?_modify_ne _ _ (Ne.symm hj)

theorem animateBars_staggers_in_index_order_witness :
    1 < [(⟨"12.5", "0%"⟩ : Bar), ⟨"37.5", "0%"⟩, ⟨"50", "0%"⟩].length ∧
      (animateBars [⟨"12.5", "0%"⟩, ⟨"37.5", "0%"⟩, ⟨"50", "0%"⟩])[1]? =
        some { delay := 1 * 120, bar := 1 } ∧
      (fireBarTimer (rejecting "-5%") [⟨"12.5", "0%"⟩, ⟨"37.5", "0%"⟩, ⟨"50", "0%"⟩]
          { delay := 1 * 120, bar := 1 })[1]? =
        some (if rejecting "-5%"
            (([(⟨"12.5", "0%"⟩ : Bar), ⟨"37.5", "0%"⟩, ⟨"50", "0%"⟩].get
              ⟨1, by decide⟩).dataPct ++ "%") then
          { dataPct :=
              ([(⟨"12.5", "0%"⟩ : Bar), ⟨"37.5", "0%"⟩, ⟨"50", "0%"⟩].get
                ⟨1, by decide⟩).dataPct,
            width :=
              ([(⟨"12.5", "0%"⟩ : Bar), ⟨"37.5", "0%"⟩, ⟨"50", "0%"⟩].get
                ⟨1, by decide⟩).dataPct ++ "%" }
          else [(⟨"12.5", "0%"⟩ : Bar), ⟨"37.5", "0%"⟩, ⟨"50", "0%"⟩].get ⟨1, by decide⟩) :=
  ⟨by decide,
    (animateBars_staggers_in_index_order (rejecting "-5%")
      [⟨"12.5", "0%"⟩, ⟨"37.5", "0%"⟩, ⟨"50", "0%"⟩] 1 (by decide)).2.1,
    (animateBars_staggers_in_index_order (rejecting "-5%")
      [⟨"12.5", "0%"⟩, ⟨"37.5", "0%"⟩, ⟨"50", "0%"⟩] 1 (by decide)).2.2.2.1⟩

/-! ## The execution rows -/

theorem buildExecRow_pct (d : DayRecord) (maxWork : ℚ) :
    (buildExecRow d maxWork).pct = d.work / maxWork * 100 := rfl

/-- C9: with its container present, `initExecution` returns the rows of exactly the records
of the dataset whose phase is `Execution`, in dataset order; every row holds
`work / 8 * 100` as its percentage, which is 100 for 8 hours and 0 for 0 hours; on the
shipped dataset of 50 records these are the records at indices 42 to 49, with percentages
12.5, 37.5, 50, 62.5, 75, 75, 87.5 and 100. -/
theorem initExecution_rows_of_execution_days (days : List DayRecord) (d : DayRecord) :
    (initExecution true days).map (fun r => r.day) =
        days.filter (fun x => x.phase == "Execution") ∧
      (∀ r ∈ initExecution true days,
        r.day.phase = "Execution" ∧ r.pct = r.day.work / 8 * 100) ∧
      (buildExecRow { d with work := 8 } defaultMaxWork).pct = 100 ∧
      (buildExecRow { d with work := 0 } defaultMaxWork).pct = 0 ∧
      DAYS.length = 50 ∧
      (initExecution true DAYS).map (fun r => r.day) = DAYS.drop 42 ∧
      (initExecution true DAYS).map (fun r => r.pct) =
        [12.5, 37.5, 50, 62.5, 75, 75, 87.5, 100] := by
  refine ⟨?_, ?_, ?_, ?_, by decide, by decide, ?_⟩
  · simp [initExecution, buildExecRow, List.map_map, Function.comp_def]
  · intro r hr
    simp only [initExecution, Bool.not_true, Bool.false_eq_true, if_false, List.mem_map,
      List.mem_filter] at hr
    obtain ⟨x, ⟨_, hx⟩, rfl⟩ := hr
    exact ⟨by simpa using hx, rfl⟩
  · norm_num [buildExecRow, defaultMaxWork]
  · norm_num [buildExecRow, defaultMaxWork]
  · simp [initExecution, DAYS, buildExecRow, defaultMaxWork]
    norm_num

/-- C10, as the claim states it: a record with 9 work hours and `maxWork = 8` gets the
percentage 112.5, outside the range from 0 to 100. -/
theorem buildExecRow_pct_exceeds_100 :
    (0 : ℚ) ≤ (⟨"2026-02-20", "Dhaka", "Execution", 8, 0, 0, 9, "Peak", ""⟩ : DayRecord).work ∧
      (0 : ℚ) < 8 ∧
      (buildExecRow ⟨"2026-02-20", "Dhaka", "Execution", 8, 0, 0, 9, "Peak", ""⟩ 8).pct =
        225 / 2 ∧
      ¬ ((buildExecRow ⟨"2026-02-20", "Dhaka", "Execution", 8, 0, 0, 9, "Peak", ""⟩ 8).pct
        ≤ 100) := by
  refine ⟨by norm_num, by norm_num, ?_, ?_⟩
  · norm_num [buildExecRow]
  · norm_num [buildExecRow]

/-- C10, amended: for a record with non-negative work hours and a positive `maxWork`, the
percentage computed by `buildExecRow` is non-negative, and it is at most 100 exactly when
the work hours do not exceed `maxWork`; the percentage is not clamped. -/
theorem buildExecRow_pct_range (d : DayRecord) (maxWork : ℚ) (h0 : 0 ≤ d.work)
    (hmax : 0 < maxWork) :
    0 ≤ (buildExecRow d maxWork).pct ∧
      ((buildExecRow d maxWork).pct ≤ 100 ↔ d.work ≤ maxWork) := by
  rw [buildExecRow_pct]
  constructor
  · exact mul_nonneg (div_nonneg h0 hmax.le) (by norm_num)
  · constructor
    · intro h
      have h1 : d.work / maxWork ≤ 1 := by linarith
      rwa [div_le_one hmax] at h1
    · intro h
      have h1 : d.work / maxWork ≤ 1 := (div_le_one hmax).mpr h
      linarith

theorem buildExecRow_pct_range_witness :
    (0 : ℚ) ≤ (⟨"2026-02-18", "Dhaka", "Execution", 8, 0, 0, 7, "Peak", ""⟩ : DayRecord).work ∧
      (0 : ℚ) < 8 ∧
      (0 ≤ (buildExecRow ⟨"2026-02-18", "Dhaka", "Execution", 8, 0, 0, 7, "Peak", ""⟩ 8).pct ∧
        ((buildExecRow ⟨"2026-02-18", "Dhaka", "Execution", 8, 0, 0, 7, "Peak", ""⟩ 8).pct
            ≤ 100 ↔
          (⟨"2026-02-18", "Dhaka", "Execution", 8, 0, 0, 7, "Peak", ""⟩ : DayRecord).work
            ≤ 8)) :=
  ⟨by norm_num, by norm_num,
    buildExecRow_pct_range ⟨"2026-02-18", "Dhaka", "Execution", 8, 0, 0, 7, "Peak", ""⟩ 8
      (by norm_num) (by norm_num)⟩

/-! ## The heatmap colours -/

theorem stateColors_ne_empty (label c : String) (h : STATE_COLORS.lookup label = some c) :
    c ≠ "" := by
  have hall : ∀ q ∈ STATE_COLORS, q.2 ≠ "" := by decide
  have hmem : (label, c) ∈ STATE_COLORS := by
    have := List.lookup_eq_some_iff.mp h
    obtain ⟨l₁, l₂, heq, _⟩ := this
    rw [heq]
    simp
  exact hall _ hmem

/-- C11: for a label that is not a member inherited from `Object.prototype`, the cell
background and the legend dot are the colour of the table when the label is in it and
`#1a1a1a` otherwise; the click outline takes the colour of the table too, but for a label
absent from the table its colour is `undefined`, not the default. -/
theorem heatmap_colours_of_label (label : String) (h : label ∉ objectPrototypeMembers) :
    match STATE_COLORS.lookup label with
    | some c =>
      cellBackground label = .own c ∧ legendDot label = .own c ∧
        (clickOutline label).colour = .own c
    | none =>
      cellBackground label = .own "#1a1a1a" ∧ legendDot label = .own "#1a1a1a" ∧
        (clickOutline label).colour = .undefined := by
  cases hl : STATE_COLORS.lookup label with
  | none =>
    simp [cellBackground, legendDot, clickOutline, getProp, hl, h, orElse]
  | some c =>
    have hc : c ≠ "" := stateColors_ne_empty label c hl
    simp [cellBackground, legendDot, clickOutline, getProp, hl, orElse, hc]

theorem heatmap_colours_of_label_witness :
    "Hopeful" ∉ objectPrototypeMembers ∧
      (match STATE_COLORS.lookup "Hopeful" with
      | some c =>
        cellBackground "Hopeful" = .own c ∧ legendDot "Hopeful" = .own c ∧
          (clickOutline "Hopeful").colour = .own c
      | none =>
        cellBackground "Hopeful" = .own "#1a1a1a" ∧ legendDot "Hopeful" = .own "#1a1a1a" ∧
          (clickOutline "Hopeful").colour = .undefined) :=
  ⟨by decide, heatmap_colours_of_label "Hopeful" (by decide)⟩

/-! ## The story selector -/

theorem phaseTag_of_phase (phase : String) (h : phase ∈ PHASES) :
    ∃ pc, getProp PHASE_TAG_COLORS phase = .own pc := by
  simp only [PHASES, List.mem_cons, List.mem_singleton, List.not_mem_nil, or_false] at h
  rcases h with h | h | h | h <;> subst h <;> exact ⟨_, rfl⟩

theorem buildEntry_of_record (entry : CuratedEntry) (d : DayRecord)
    (h : getProp PHASE_TAG_COLORS d.phase ≠ .undefined) :
    ∃ el, buildEntry entry (some d) = .ok el ∧ el.day = d ∧ el.title = entry.title ∧
      el.className = "story-entry " ++ entry.type := by
  cases hpc : getProp PHASE_TAG_COLORS d.phase with
  | undefined => exact absurd hpc h
  | own pc =>
    refine ⟨{ className := "story-entry " ++ entry.type, day := d, tagBg := .own pc.1,
              tagColor := .own pc.2, title := entry.title, text := d.log }, ?_, rfl, rfl, rfl⟩
    unfold buildEntry
    simp only [hpc]
  | inherited name =>
    refine ⟨{ className := "story-entry " ++ entry.type, day := d, tagBg := .undefined,
              tagColor := .undefined, title := entry.title, text := d.log }, ?_, rfl, rfl, rfl⟩
    unfold buildEntry
    simp only [hpc]

theorem buildEntry_out_of_range (days : List DayRecord) (entry : CuratedEntry)
    (h : days.length ≤ entry.idx) :
    buildEntry entry days[entry.idx]? =
      .error "TypeError: cannot read properties of undefined (reading date)" := by
  rw [List.getElem?_eq_none h]
  rfl

theorem storyLoop_throws (days : List DayRecord) (entry : CuratedEntry)
    (h : days.length ≤ entry.idx) (pre post : List CuratedEntry) :
    (storyLoop days (pre ++ entry :: post)).thrown ≠ none ∧
      (storyLoop days (pre ++ entry :: post)).appended.length ≤ pre.length := by
  induction pre with
  | nil =>
    have hb := buildEntry_out_of_range days entry h
    simp [storyLoop, hb]
  | cons e es ih =>
    show (storyLoop days (e :: (es ++ entry :: post))).thrown ≠ none ∧
      (storyLoop days (e :: (es ++ entry :: post))).appended.length ≤ (e :: es).length
    unfold storyLoop
    cases hb : buildEntry e days[e.idx]? with
    | error msg => simp
    | ok el =>
      simp only [List.length_cons]
      exact ⟨ih.1, Nat.succ_le_succ ih.2⟩

/-- C12, as the claim states it: an entry whose index is within the dataset, on a record
whose phase has no entry in `PHASE_TAG_COLORS`, builds no element: reading `pc.bg` throws
and `initStory` ends with nothing appended. -/
theorem story_selector_throws_on_unknown_phase :
    (⟨0, "low", "Day 1"⟩ : CuratedEntry).idx <
        [(⟨"2026-01-01", "Dhaka", "Unknown", 6, 4, 10, 0, "Passive", ""⟩ : DayRecord)].length ∧
      buildEntry ⟨0, "low", "Day 1"⟩
          [(⟨"2026-01-01", "Dhaka", "Unknown", 6, 4, 10, 0, "Passive", ""⟩ : DayRecord)][0]? =
        .error "TypeError: cannot read properties of undefined (reading bg)" ∧
      (initStory true [⟨"2026-01-01", "Dhaka", "Unknown", 6, 4, 10, 0, "Passive", ""⟩]
        [⟨0, "low", "Day 1"⟩]).appended = [] ∧
      (initStory true [⟨"2026-01-01", "Dhaka", "Unknown", 6, 4, 10, 0, "Passive", ""⟩]
        [⟨0, "low", "Day 1"⟩]).thrown ≠ none := by
  refine ⟨by decide, rfl, by decide, by decide⟩

/-- C12, amended: for a curated entry whose index is within the dataset, on a record whose
phase has an entry in `PHASE_TAG_COLORS` (as the four phases Collapse, Reset, Relapse and
Execution have), the story selector builds the element from exactly the record at that
index, paired with the authored title; for an index at or beyond the length of the dataset
`buildEntry` throws, `initStory` ends with that error and no element is appended for the
entry.  On the shipped dataset index 42 gives the record of 2026-02-12 with the title
`Day 43 — The Decision`, index 50 throws, and the nine shipped entries all build. -/
theorem story_selector_reads_indexed_record (days : List DayRecord) (entry : CuratedEntry)
    (k : Nat) (pre post : List CuratedEntry) (h : entry.idx < days.length)
    (hp : getProp PHASE_TAG_COLORS (days.get ⟨entry.idx, h⟩).phase ≠ .undefined) :
    (∃ el, buildEntry entry days[entry.idx]? = .ok el ∧ el.day = days.get ⟨entry.idx, h⟩ ∧
        el.title = entry.title ∧ el.className = "story-entry " ++ entry.type) ∧
      (∀ phase ∈ PHASES, getProp PHASE_TAG_COLORS phase ≠ .undefined) ∧
      (∃ msg, buildEntry { entry with idx := days.length + k } days[days.length + k]? =
        .error msg) ∧
      (initStory true days (pre ++ { entry with idx := days.length + k } :: post)).thrown
        ≠ none ∧
      (initStory true days
        (pre ++ { entry with idx := days.length + k } :: post)).appended.length
        ≤ pre.length ∧
      (buildEntry ⟨42, "milestone", "Day 43 — The Decision"⟩ DAYS[42]?).toOption.map
          (fun el => (el.day.date, el.title)) =
        some ("2026-02-12", "Day 43 — The Decision") ∧
      (buildEntry ⟨50, "milestone", "Day 51"⟩ DAYS[50]?).toOption = none ∧
      (initStory true DAYS KEY_ENTRIES).thrown = none ∧
      (initStory true DAYS KEY_ENTRIES).appended.map (fun el => el.day) =
        KEY_ENTRIES.filterMap (fun e => DAYS[e.idx]?) := by
  refine ⟨?_, ?_, ?_, ?_, ?_, by decide, by decide, by decide, by decide⟩
  · rw [List.getElem?_eq_getElem h]
    exact buildEntry_of_record entry _ hp
  · intro phase hph
    obtain ⟨pc, hpc⟩ := phaseTag_of_phase phase hph
    rw [hpc]
    exact fun e => PropValue.noConfusion e
  · exact ⟨_, buildEntry_out_of_range days { entry with idx := days.length + k }
      (Nat.le_add_right _ _)⟩
  · exact (storyLoop_throws days { entry with idx := days.length + k }
      (Nat.le_add_right _ _) pre post).1
  · exact (storyLoop_throws days { entry with idx := days.length + k }
      (Nat.le_add_right _ _) pre post).2

theorem story_selector_reads_indexed_record_witness :
    ∃ h : (⟨42, "milestone", "Day 43 — The Decision"⟩ : CuratedEntry).idx < DAYS.length,
      getProp PHASE_TAG_COLORS
          (DAYS.get ⟨(⟨42, "milestone", "Day 43 — The Decision"⟩ : CuratedEntry).idx, h⟩).phase
          ≠ .undefined ∧
        (∃ el, buildEntry ⟨42, "milestone", "Day 43 — The Decision"⟩ DAYS[42]? = .ok el ∧
          el.day = DAYS.get ⟨42, h⟩ ∧ el.title = "Day 43 — The Decision" ∧
          el.className = "story-entry milestone") :=
  ⟨by decide, by decide,
    (story_selector_reads_indexed_record DAYS ⟨42, "milestone", "Day 43 — The Decision"⟩ 0
      [] [] (by decide) (by decide)).1⟩

/-! ## Mount points -/

/-- C13: an init function with a guard returns at once when its mount point is absent: no
listener, no observer, nothing built, and `initStory` and `initExecution` return the empty
list.  `initCharts` has no guard: with `#mainChart` absent it throws, and the
`DOMContentLoaded` handler, which calls it first, ends there with no init function
completed. -/
theorem init_functions_on_missing_mount_point (p : Page) (days : List DayRecord)
    (entries : List CuratedEntry) :
    (p.has "cursor" = false → initCursor p = Outcome.skipped) ∧
      (p.has "progress-bar" = false → initProgressBar p = Outcome.skipped) ∧
      (p.has "hero" = false → initHeroCounters p = Outcome.skipped) ∧
      (p.has "metrics" = false → initMetricCounters p = Outcome.skipped) ∧
      buildMindmap false days = [] ∧
      buildLegend false days = [] ∧
      initStory false days entries = { appended := [], thrown := none } ∧
      initExecution false days = [] ∧
      (p.has "execBars" = false → initExecutionObserver p = Outcome.skipped) ∧
      (p.has "mainChart" = false →
        (initCharts p).thrown ≠ none ∧ (initCharts p).effects = [] ∧
        (domContentLoaded p true days entries).thrown ≠ none ∧
        (domContentLoaded p true days entries).completed = []) := by
  refine ⟨?_, ?_, ?_, ?_, rfl, rfl, rfl, rfl, ?_, ?_⟩
  · intro h; simp [initCursor, h]
  · intro h; simp [initProgressBar, h]
  · intro h; simp [initHeroCounters, h]
  · intro h; simp [initMetricCounters, h]
  · intro h; simp [initExecutionObserver, h]
  · intro h
    have hc : initCharts p =
        { effects := [],
          thrown := some "TypeError: cannot read properties of null (reading getContext)" } := by
      simp [initCharts, h]
    refine ⟨by rw [hc]; simp, by rw [hc], ?_, ?_⟩
    · simp [domContentLoaded, hc]
    · simp [domContentLoaded, hc]

/-! ## The dataset -/

/-- C14: the shipped dataset has 50 records, its dates run in non-decreasing order from
2026-01-01 to 2026-02-19, and its phases are 26 records of Collapse, then 4 of Reset, then
12 of Relapse, then 8 of Execution, so the phase rank never decreases and no phase
recurs. -/
theorem days_are_ordered :
    DAYS.length = 50 ∧
      List.Pairwise (fun a b => a ≤ b) (DAYS.map (fun d => isoDayKey d.date)) ∧
      DAYS.head?.map (fun d => d.date) = some "2026-01-01" ∧
      DAYS.getLast?.map (fun d => d.date) = some "2026-02-19" ∧
      DAYS.map (fun d => d.phase) =
        List.replicate 26 "Collapse" ++ List.replicate 4 "Reset" ++
          List.replicate 12 "Relapse" ++ List.replicate 8 "Execution" ∧
      List.Pairwise (fun a b => a ≤ b) (DAYS.map (fun d => phaseRank d.phase)) := by
  refine ⟨by decide, by decide, by decide, by decide, by decide, by decide⟩

theorem pct_le_100_of_work_le (d : DayRecord) (h : d.work ≤ 8) :
    (buildExecRow d defaultMaxWork).pct ≤ 100 := by
  rw [buildExecRow_pct]
  unfold defaultMaxWork
  linarith

/-- C18: the final values of the hero counters agree with the shipped dataset: 50 is the
number of records, 40 is the sum of the work hours, and 8 is the largest work value, which
is also the default `maxWork` of `buildExecRow`, so the largest bar is 100 percent. -/
theorem hero_targets_agree_with_dataset :
    CountTimer.mk 800 (.byId "counter-days") (some (DAYS.length : ℤ)) ∈ heroTimers ∧
      CountTimer.mk 900 (.byId "counter-work") (some 40) ∈ heroTimers ∧
      (DAYS.map (fun d => d.work)).sum = 40 ∧
      CountTimer.mk 1100 (.byId "counter-peak") (some 8) ∈ heroTimers ∧
      (∀ d ∈ DAYS, d.work ≤ 8) ∧ (∃ d ∈ DAYS, d.work = 8) ∧
      defaultMaxWork = 8 ∧
      (∀ d ∈ DAYS, (buildExecRow d defaultMaxWork).pct ≤ 100) ∧
      (∃ d ∈ DAYS, (buildExecRow d defaultMaxWork).pct = 100) := by
  have hle : ∀ d ∈ DAYS, d.work ≤ 8 := by decide
  refine ⟨by decide, by decide, ?_, by decide, hle, by decide, rfl, ?_, ?_⟩
  · simp [DAYS]
    norm_num
  · intro d hd
    exact pct_le_100_of_work_le d (hle d hd)
  · refine ⟨⟨"2026-02-19", "Dhaka", "Execution", 8, 0, 0, 8, "Unstoppable",
      "Project completed. 50-day turnaround achieved."⟩, by decide, ?_⟩
    norm_num [buildExecRow, defaultMaxWork]

/-! ## The start time of the ramp -/

theorem step_of_null (target : ℤ) (duration t : ℚ) :
    (step target duration none t).startTime = t ∧ (step target duration none t).elapsed = 0 := by
  constructor
  · rfl
  · show t - t = 0
    ring

theorem step_of_started (target : ℤ) (duration t0 t : ℚ) (h0 : t0 ≠ 0) :
    (step target duration (some t0) t).startTime = t0 ∧
      (step target duration (some t0) t).elapsed = t - t0 := by
  have hs : (step target duration (some t0) t).startTime = t0 := by
    show (if notStartTime (some t0) then t else (some t0).getD t) = t0
    simp [notStartTime, h0]
  refine ⟨hs, ?_⟩
  show t - (step target duration (some t0) t).startTime = t - t0
  rw [hs]

theorem frames_of_started (target : ℤ) (duration t0 : ℚ) (h0 : t0 ≠ 0) (ts : List ℚ) :
    (animateFrames target duration (some t0) ts).map (fun f => f.startTime) =
        List.replicate (animateFrames target duration (some t0) ts).length t0 ∧
      (animateFrames target duration (some t0) ts).map (fun f => f.elapsed) =
        (ts.take (animateFrames target duration (some t0) ts).length).map (fun t => t - t0) := by
  induction ts with
  | nil => simp [animateFrames]
  | cons t ts ih =>
    obtain ⟨hs, he⟩ := step_of_started target duration t0 t h0
    unfold animateFrames
    simp only
    rw [hs]
    by_cases hr : (step target duration (some t0) t).requested = 0
    · simp [hr, hs, he, List.replicate]
    · simp only [hr, if_false, List.map_cons, List.length_cons, List.take_succ_cons,
        List.replicate_succ, hs, he]
      rw [ih.1, ih.2]
      exact ⟨rfl, rfl⟩

/-- C15: when the first timestamp is not 0, every frame of `animateCount` keeps
`startTime` at the first timestamp and uses `t_k - t0` as elapsed time.  When the first
timestamp is 0, `!startTime` is true again at the second frame: for the timestamps 0, 16, 32
the start time becomes 16 and the elapsed times are 0, 0, 16 instead of 0, 16, 32. -/
theorem startTime_latched_unless_first_timestamp_zero (target : ℤ) (duration t0 : ℚ)
    (ts : List ℚ) (h0 : t0 ≠ 0) :
    (animateFrames target duration none (t0 :: ts)).map (fun f => f.startTime) =
        List.replicate (animateFrames target duration none (t0 :: ts)).length t0 ∧
      (animateFrames target duration none (t0 :: ts)).map (fun f => f.elapsed) =
        ((t0 :: ts).take (animateFrames target duration none (t0 :: ts)).length).map
          (fun t => t - t0) ∧
      (animateFrames 50 1600 none [0, 16, 32]).map (fun f => f.startTime) = [0, 16, 16] ∧
      (animateFrames 50 1600 none [0, 16, 32]).map (fun f => f.elapsed) = [0, 0, 16] := by
  obtain ⟨hs, he⟩ := step_of_null target duration t0
  refine ⟨?_, ?_, ?_, ?_⟩
  · unfold animateFrames
    simp only
    rw [hs]
    by_cases hr : (step target duration none t0).requested = 0
    · simp [hr, hs, List.replicate]
    · simp only [hr, if_false, List.map_cons, List.length_cons, List.replicate_succ, hs]
      rw [(frames_of_started target duration t0 h0 ts).1]
  · unfold animateFrames
    simp only
    rw [hs]
    by_cases hr : (step target duration none t0).requested = 0
    · simp [hr, he]
    · simp only [hr, if_false, List.map_cons, List.length_cons, List.take_succ_cons, he]
      rw [(frames_of_started target duration t0 h0 ts).2]
      simp
  · simp [animateFrames, step, notStartTime, progressOf]
  · simp [animateFrames, step, notStartTime, progressOf]
    norm_num

/-! ## The legend -/

theorem legendStep_of_seen (st : LegendLoop) (d : DayRecord) (h : d.mental ∈ st.seen) :
    legendStep st d = st := by
  unfold legendStep
  simp [h]

theorem legendStep_of_new (st : LegendLoop) (d : DayRecord) (h : d.mental ∉ st.seen) :
    legendStep st d =
      { seen := d.mental :: st.seen, states := st.states ++ [d.mental] } := by
  unfold legendStep
  simp [h]

/-- The loop of `buildLegend` appends to `states`, in order of first occurrence, exactly the
labels of the remaining records that are not yet in it. -/
theorem legend_fold (ds : List DayRecord) (st : LegendLoop)
    (hinv : ∀ s, s ∈ st.seen ↔ s ∈ st.states) :
    ∃ fresh, (ds.foldl legendStep st).states = st.states ++ fresh ∧
      (∀ x, x ∈ fresh ↔ x ∉ st.states ∧ x ∈ ds.map (fun d => d.mental)) ∧
      List.Pairwise
        (fun a b => (ds.map (fun d => d.mental)).indexOf a <
          (ds.map (fun d => d.mental)).indexOf b) fresh := by
  induction ds generalizing st with
  | nil => exact ⟨[], by simp, by simp, List.Pairwise.nil⟩
  | cons d ds ih =>
    have hfold : (d :: ds).foldl legendStep st = ds.foldl legendStep (legendStep st d) := rfl
    rw [hfold]
    by_cases hm : d.mental ∈ st.seen
    · rw [legendStep_of_seen st d hm]
      obtain ⟨fresh, h1, h2, h3⟩ := ih st hinv
      have hstates : d.mental ∈ st.states := (hinv _).mp hm
      refine ⟨fresh, h1, ?_, ?_⟩
      · intro x
        rw [h2 x]
        simp only [List.map_cons, List.mem_cons]
        constructor
        · rintro ⟨ha, hb⟩; exact ⟨ha, Or.inr hb⟩
        · rintro ⟨ha, hb | hb⟩
          · exact absurd (hb ▸ hstates) ha
          · exact ⟨ha, hb⟩
      · refine h3.imp_of_mem ?_
        intro a b ha hb hab
        have hane : d.mental ≠ a := fun e => ((h2 a).mp ha).1 (e ▸ hstates)
        have hbne : d.mental ≠ b := fun e => ((h2 b).mp hb).1 (e ▸ hstates)
        simp only [List.map_cons]
        rw [List.indexOf_cons_ne _ hane, List.indexOf_cons_ne _ hbne]
        exact Nat.succ_lt_succ hab
    · rw [legendStep_of_new st d hm]
      have hnot : d.mental ∉ st.states := fun h => hm ((hinv _).mpr h)
      have hinv' : ∀ s, s ∈ d.mental :: st.seen ↔ s ∈ st.states ++ [d.mental] := by
        intro s
        simp only [List.mem_cons, List.mem_append, List.mem_singleton, List.not_mem_nil,
          or_false, hinv s]
        exact or_comm
      obtain ⟨fresh, h1, h2, h3⟩ :=
        ih { seen := d.mental :: st.seen, states := st.states ++ [d.mental] } hinv'
      simp only at h1 h2
      refine ⟨d.mental :: fresh, ?_, ?_, ?_⟩
      · rw [h1]; simp
      · intro x
        simp only [List.mem_cons, List.map_cons]
        rw [h2 x]
        simp only [List.mem_append, List.mem_singleton, not_or]
        constructor
        · rintro (rfl | ⟨⟨ha, _⟩, hb⟩)
          · exact ⟨hnot, Or.inl rfl⟩
          · exact ⟨ha, Or.inr hb⟩
        · rintro ⟨ha, hb | hb⟩
          · exact Or.inl hb
          · by_cases hx : x = d.mental
            · exact Or.inl hx
            · exact Or.inr ⟨⟨ha, hx⟩, hb⟩
      · rw [List.pairwise_cons]
        constructor
        · intro a ha
          have hane : d.mental ≠ a := by
            intro e
            have := ((h2 a).mp ha).1
            apply this
            simp [e]
          simp only [List.map_cons]
          rw [List.indexOf_cons_self, List.indexOf_cons_ne _ hane]
          exact Nat.succ_pos _
        · refine h3.imp_of_mem ?_
          intro a b ha hb hab
          have hane : d.mental ≠ a := by
            intro e
            have := ((h2 a).mp ha).1
            apply this
            simp [e]
          have hbne : d.mental ≠ b := by
            intro e
            have := ((h2 b).mp hb).1
            apply this
            simp [e]
          simp only [List.map_cons]
          rw [List.indexOf_cons_ne _ hane, List.indexOf_cons_ne _ hbne]
          exact Nat.succ_lt_succ hab

set_option maxRecDepth 100000 in
theorem legendStates_DAYS :
    legendStates DAYS =
      ["Passive", "Drained", "Unstable", "Destroyed", "Confused", "Reflective",
       "Overshadowed", "Tired", "Neutral", "Relapsed", "Conflicted", "Determined",
       "Focused", "Clear", "Driven", "Optimized", "Peak", "Unstoppable"] := by
  decide

/-- C17: the states `buildLegend` renders are the mental-state labels of the dataset, each
exactly once, ordered by the index of their first occurrence; on the shipped dataset these
are 18 labels beginning Passive, Drained, Unstable, Destroyed, Confused. -/
theorem legend_states_in_first_occurrence_order (days : List DayRecord) :
    (legendStates days).Nodup ∧
      (∀ s, s ∈ legendStates days ↔ s ∈ days.map (fun d => d.mental)) ∧
      List.Pairwise
        (fun a b => (days.map (fun d => d.mental)).indexOf a <
          (days.map (fun d => d.mental)).indexOf b) (legendStates days) ∧
      (buildLegend true days).map (fun item => item.state) = legendStates days ∧
      (legendStates DAYS).length = 18 ∧
      (legendStates DAYS).take 5 =
        ["Passive", "Drained", "Unstable", "Destroyed", "Confused"] := by
  obtain ⟨fresh, h1, h2, h3⟩ :=
    legend_fold days { seen := [], states := [] } (by simp)
  have hst : legendStates days = fresh := by
    unfold legendStates
    rw [h1]
    rfl
  rw [hst]
  refine ⟨?_, ?_, h3, ?_, by rw [legendStates_DAYS]; rfl, by rw [legendStates_DAYS]; rfl⟩
  · refine h3.imp ?_
    intro a b hab e
    rw [e] at hab
    exact lt_irrefl _ hab
  · intro s
    rw [h2 s]
    simp
  · rw [← hst]
    simp [buildLegend, List.map_map, Function.comp_def]

/-! ## The phase bands -/

theorem regionStep_prevPhase (st : RegionLoop) (i : Nat) (d : DayRecord) :
    (regionStep st i d).prevPhase = some d.phase := by
  unfold regionStep
  by_cases h : some d.phase ≠ st.prevPhase
  · simp [h]
  · have h' : some d.phase = st.prevPhase := not_not.mp h
    simp [h']

theorem regionStep_regions (st : RegionLoop) (i : Nat) (d : DayRecord) :
    (regionStep st i d).regions =
      st.regions ++
        (if some d.phase ≠ st.prevPhase then [{ x := i, phase := d.phase }] else []) := by
  unfold regionStep
  by_cases h : some d.phase ≠ st.prevPhase
  · simp [h]
  · have h' : some d.phase = st.prevPhase := not_not.mp h
    simp [h']

theorem phaseBefore_cons (prev : Option String) (d : DayRecord) (ds : List DayRecord)
    (j : Nat) :
    phaseBefore prev (d :: ds) (j + 1) = phaseBefore (some d.phase) ds j := by
  cases j with
  | zero => simp [phaseBefore]
  | succ j => simp [phaseBefore]

/-- The loop appends, in increasing index order, one region for every remaining record
whose phase differs from the phase compared with. -/
theorem regionLoop_regions (ds : List DayRecord) (i : Nat) (st : RegionLoop) :
    ∃ fresh, (regionLoop i st ds).regions = st.regions ++ fresh ∧
      (∀ r ∈ fresh, i ≤ r.x ∧ r.x < i + ds.length) ∧
      List.Pairwise (fun a b => a.x < b.x) fresh ∧
      (∀ r, r ∈ fresh ↔ ∃ j d, ds[j]? = some d ∧ r = { x := i + j, phase := d.phase } ∧
        some d.phase ≠ phaseBefore st.prevPhase ds j) := by
  induction ds generalizing i st with
  | nil => exact ⟨[], by simp [regionLoop], by simp, List.Pairwise.nil, by simp⟩
  | cons d ds ih =>
    obtain ⟨fresh, h1, h2, h3, h4⟩ := ih (i + 1) (regionStep st i d)
    have hloop : regionLoop i st (d :: ds) = regionLoop (i + 1) (regionStep st i d) ds := rfl
    rw [hloop, h1, regionStep_regions, List.append_assoc]
    rw [regionStep_prevPhase] at h4
    refine ⟨_, rfl, ?_, ?_, ?_⟩
    · intro r hr
      rcases List.mem_append.mp hr with hr | hr
      · by_cases hc : some d.phase ≠ st.prevPhase
        · rw [if_pos hc, List.mem_singleton] at hr
          subst hr
          simp
        · rw [if_neg hc] at hr; cases hr
      · have := h2 r hr
        simp only [List.length_cons]
        omega
    · rw [List.pairwise_append]
      refine ⟨?_, h3, ?_⟩
      · by_cases hc : some d.phase ≠ st.prevPhase
        · rw [if_pos hc]; simp
        · rw [if_neg hc]; simp
      · intro a ha b hb
        have hbx := (h2 b hb).1
        by_cases hc : some d.phase ≠ st.prevPhase
        · rw [if_pos hc, List.mem_singleton] at ha
          subst ha
          show i < b.x
          omega
        · rw [if_neg hc] at ha; cases ha
    · intro r
      rw [List.mem_append, h4 r]
      constructor
      · rintro (hr | ⟨j, d', hj, hr, hne⟩)
        · by_cases hc : some d.phase ≠ st.prevPhase
          · rw [if_pos hc, List.mem_singleton] at hr
            exact ⟨0, d, by simp, by simpa using hr, hc⟩
          · rw [if_neg hc] at hr; cases hr
        · refine ⟨j + 1, d', by simpa using hj, ?_, ?_⟩
          · rw [hr]
            simp only [Region.mk.injEq, and_true]
            omega
          · rw [phaseBefore_cons]
            exact hne
      · rintro ⟨j, d', hj, hr, hne⟩
        cases j with
        | zero =>
          left
          simp only [List.getElem?_cons_zero, Option.some.injEq] at hj
          subst hj
          have hc : some d.phase ≠ st.prevPhase := hne
          rw [if_pos hc, List.mem_singleton]
          simpa using hr
        | succ j =>
          right
          refine ⟨j, d', by simpa using hj, ?_, ?_⟩
          · rw [hr]
            simp only [Region.mk.injEq, and_true]
            omega
          · rw [phaseBefore_cons] at hne
            exact hne

theorem phaseRegions_head (d : DayRecord) (ds : List DayRecord) :
    ∃ rest, phaseRegions (d :: ds) = { x := 0, phase := d.phase } :: rest := by
  obtain ⟨fresh, h1, _⟩ :=
    regionLoop_regions ds 1 (regionStep { regions := [], prevPhase := none } 0 d)
  refine ⟨fresh, ?_⟩
  show (regionLoop 1 (regionStep { regions := [], prevPhase := none } 0 d) ds).regions = _
  rw [h1, regionStep_regions]
  simp

theorem phaseRegions_spec (days : List DayRecord) :
    (∀ r ∈ phaseRegions days, r.x < days.length) ∧
      List.Pairwise (fun a b => a.x < b.x) (phaseRegions days) ∧
      (∀ r, r ∈ phaseRegions days ↔ ∃ j d, days[j]? = some d ∧
        r = { x := j, phase := d.phase } ∧ some d.phase ≠ phaseBefore none days j) := by
  obtain ⟨fresh, h1, h2, h3, h4⟩ :=
    regionLoop_regions days 0 { regions := [], prevPhase := none }
  have hreg : phaseRegions days = fresh := by
    unfold phaseRegions
    rw [h1]
    rfl
  rw [hreg]
  refine ⟨?_, h3, ?_⟩
  · intro r hr
    have := (h2 r hr).2
    omega
  · intro r
    rw [h4 r]
    simp

theorem phaseBands_start (days : List DayRecord) :
    (phaseBands days).map (fun b => b.start) = (phaseRegions days).map (fun r => r.x) := by
  apply List.ext_getElem?
  intro i
  simp only [phaseBands, List.getElem?_map, List.getElem?_mapIdx]
  cases (phaseRegions days)[i]? <;> rfl

theorem phaseBands_stop (days : List DayRecord) (hne : phaseRegions days ≠ []) :
    (phaseBands days).map (fun b => b.stop) =
      ((phaseRegions days).map (fun r => r.x)).tail ++ [days.length - 1] := by
  have hpos : 0 < (phaseRegions days).length := List.length_pos.mpr hne
  apply List.ext_getElem?
  intro i
  simp only [phaseBands, List.getElem?_map, List.getElem?_mapIdx]
  by_cases h1 : i + 1 < (phaseRegions days).length
  · have hi : i < (phaseRegions days).length := by omega
    rw [List.getElem?_append_left (by simp; omega), List.getElem?_tail, List.getElem?_map,
      List.getElem?_eq_getElem hi, List.getElem?_eq_getElem h1]
    simp [h1]
  · by_cases h2 : i + 1 = (phaseRegions days).length
    · have hi : i < (phaseRegions days).length := by omega
      rw [List.getElem?_append_right (by simp; omega), List.getElem?_eq_getElem hi]
      have hidx : i - (List.map (fun r => r.x) (phaseRegions days)).tail.length = 0 := by
        simp; omega
      rw [hidx]
      simp [h1]
    · have hi : (phaseRegions days).length ≤ i := by omega
      rw [List.getElem?_eq_none hi, List.getElem?_eq_none (by simp; omega)]
      rfl

theorem chain_cover (rest : List Nat) (s last k : Nat) (hs : s ≤ k) (hk : k ≤ last) :
    ∃ q ∈ (s :: rest).zip (rest ++ [last]), q.1 ≤ k ∧ k ≤ q.2 := by
  induction rest generalizing s with
  | nil => exact ⟨(s, last), by simp, hs, hk⟩
  | cons t rest ih =>
    by_cases hkt : k ≤ t
    · exact ⟨(s, t), by simp, hs, hkt⟩
    · obtain ⟨q, hq, h1, h2⟩ := ih t (by omega)
      exact ⟨q, by simp only [List.cons_append, List.zip_cons_cons]; exact List.mem_cons_of_mem _ hq,
        h1, h2⟩

theorem chain_ordered (rest : List Nat) (s last : Nat)
    (hp : List.Pairwise (fun a b => a < b) (s :: rest)) (hl : ∀ y ∈ s :: rest, y ≤ last) :
    ∀ q ∈ (s :: rest).zip (rest ++ [last]), q.1 ≤ q.2 ∧ q.2 ≤ last := by
  induction rest generalizing s with
  | nil =>
    intro q hq
    simp only [List.nil_append, List.zip_cons_cons, List.zip_nil_right, List.mem_singleton] at hq
    subst hq
    exact ⟨hl s (List.mem_cons_self _ _), le_rfl⟩
  | cons t rest ih =>
    intro q hq
    simp only [List.cons_append, List.zip_cons_cons, List.mem_cons] at hq
    rcases hq with rfl | hq
    · exact ⟨Nat.le_of_lt ((List.pairwise_cons.mp hp).1 t (List.mem_cons_self _ _)),
        hl t (List.mem_cons_of_mem _ (List.mem_cons_self _ _))⟩
    · exact ih t (List.pairwise_cons.mp hp).2
        (fun y hy => hl y (List.mem_cons_of_mem _ hy)) q hq

theorem phaseChangesAt_iff (days : List DayRecord) (i : Nat) :
    (∃ r ∈ phaseRegions days, r.x = i) ↔ phaseChangesAt days i := by
  unfold phaseChangesAt
  constructor
  · rintro ⟨r, hr, hx⟩
    obtain ⟨j, d, hj, hrj, hne⟩ := ((phaseRegions_spec days).2.2 r).mp hr
    have hji : j = i := by rw [hrj] at hx; exact hx
    subst hji
    refine ⟨d, hj, ?_⟩
    cases j with
    | zero => exact Or.inl rfl
    | succ j =>
      right
      intro e
      apply hne
      show some d.phase = days[j]?.map (fun r => r.phase)
      simpa using e.symm
  · rintro ⟨d, hd, hc⟩
    refine ⟨{ x := i, phase := d.phase }, ?_, rfl⟩
    apply ((phaseRegions_spec days).2.2 _).mpr
    refine ⟨i, d, hd, rfl, ?_⟩
    cases i with
    | zero => intro e; cases e
    | succ j =>
      rcases hc with hc | hc
      · cases hc
      · intro e
        apply hc
        have e' : some d.phase = days[j]?.map (fun r => r.phase) := e
        simpa using e'.symm

theorem phaseBands_pairs (days : List DayRecord) (hne : phaseRegions days ≠ []) :
    (phaseBands days).map (fun b => (b.start, b.stop)) =
      ((phaseRegions days).map (fun r => r.x)).zip
        (((phaseRegions days).map (fun r => r.x)).tail ++ [days.length - 1]) := by
  rw [← phaseBands_stop days hne, ← phaseBands_start days, List.zip_map']

set_option maxRecDepth 100000 in
theorem phaseRegions_DAYS :
    phaseRegions DAYS =
      [{ x := 0, phase := "Collapse" }, { x := 26, phase := "Reset" },
       { x := 30, phase := "Relapse" }, { x := 42, phase := "Execution" }] := by
  decide

set_option maxRecDepth 100000 in
theorem phaseBands_DAYS :
    (phaseBands DAYS).map (fun b => (b.start, b.stop)) =
      [(0, 26), (26, 30), (30, 42), (42, 49)] := by
  decide

/-- C16: for a non-empty dataset, `beforeDraw` starts a region exactly at index 0 and at
every index whose phase differs from the phase of the record before it, with that record's
phase; the starts increase strictly from 0; band `i` runs from its start to the start of
band `i + 1`, the last band to `length - 1`; so every band is within the dataset and every
index from 0 to `length - 1` lies in a band.  On the shipped dataset the regions start at
0, 26, 30 and 42 with the phases Collapse, Reset, Relapse and Execution. -/
theorem phase_bands_cover_dataset (days : List DayRecord) (i k : Nat) (hne : days ≠ [])
    (hk : k ≤ days.length - 1) :
    ((∃ r ∈ phaseRegions days, r.x = i) ↔ phaseChangesAt days i) ∧
      (∀ r ∈ phaseRegions days, days[r.x]?.map (fun d => d.phase) = some r.phase) ∧
      List.Pairwise (fun a b => a.x < b.x) (phaseRegions days) ∧
      ((phaseRegions days).map (fun r => r.x)).head? = some 0 ∧
      (phaseBands days).map (fun b => b.start) = (phaseRegions days).map (fun r => r.x) ∧
      (phaseBands days).map (fun b => b.stop) =
        ((phaseRegions days).map (fun r => r.x)).tail ++ [days.length - 1] ∧
      (∀ b ∈ phaseBands days, b.start ≤ b.stop ∧ b.stop ≤ days.length - 1) ∧
      (∃ b ∈ phaseBands days, b.start ≤ k ∧ k ≤ b.stop) ∧
      phaseRegions DAYS =
        [{ x := 0, phase := "Collapse" }, { x := 26, phase := "Reset" },
         { x := 30, phase := "Relapse" }, { x := 42, phase := "Execution" }] ∧
      (phaseBands DAYS).map (fun b => (b.start, b.stop)) =
        [(0, 26), (26, 30), (30, 42), (42, 49)] := by
  obtain ⟨hlt, hpw, hmem⟩ := phaseRegions_spec days
  obtain ⟨d, ds, rfl⟩ : ∃ d ds, days = d :: ds := by
    cases days with
    | nil => exact absurd rfl hne
    | cons d ds => exact ⟨d, ds, rfl⟩
  obtain ⟨rest, hhead⟩ := phaseRegions_head d ds
  have hrne : phaseRegions (d :: ds) ≠ [] := by rw [hhead]; simp
  have hpairs := phaseBands_pairs (d :: ds) hrne
  have hstarts : (phaseRegions (d :: ds)).map (fun r => r.x) =
      0 :: rest.map (fun r => r.x) := by rw [hhead]; rfl
  have hpw' : List.Pairwise (fun a b => a < b) (0 :: rest.map (fun r => r.x)) := by
    rw [← hstarts, List.pairwise_map]
    exact hpw
  have hle : ∀ y ∈ 0 :: rest.map (fun r => r.x), y ≤ (d :: ds).length - 1 := by
    intro y hy
    rw [← hstarts, List.mem_map] at hy
    obtain ⟨r, hr, rfl⟩ := hy
    have := hlt r hr
    omega
  rw [hstarts] at hpairs
  simp only [List.tail_cons] at hpairs
  refine ⟨phaseChangesAt_iff (d :: ds) i, ?_, hpw, ?_, phaseBands_start (d :: ds),
    phaseBands_stop (d :: ds) hrne, ?_, ?_, phaseRegions_DAYS, phaseBands_DAYS⟩
  · intro r hr
    obtain ⟨j, d', hj, hrj, _⟩ := (hmem r).mp hr
    rw [hrj]
    simp [hj]
  · rw [hstarts]; rfl
  · intro b hb
    have hq : (b.start, b.stop) ∈ (phaseBands (d :: ds)).map (fun b => (b.start, b.stop)) :=
      List.mem_map.mpr ⟨b, hb, rfl⟩
    rw [hpairs] at hq
    exact chain_ordered _ 0 _ hpw' hle _ hq
  · obtain ⟨q, hq, h1, h2⟩ := chain_cover (rest.map (fun r => r.x)) 0
      ((d :: ds).length - 1) k (Nat.zero_le _) hk
    rw [← hpairs, List.mem_map] at hq
    obtain ⟨b, hb, rfl⟩ := hq
    exact ⟨b, hb, h1, h2⟩

theorem phase_bands_cover_dataset_witness :
    DAYS ≠ [] ∧ 27 ≤ DAYS.length - 1 ∧
      ((∃ r ∈ phaseRegions DAYS, r.x = 26) ↔ phaseChangesAt DAYS 26) ∧
      (∃ b ∈ phaseBands DAYS, b.start ≤ 27 ∧ 27 ≤ b.stop) :=
  ⟨by decide, by decide,
    (phase_bands_cover_dataset DAYS 26 27 (by decide) (by decide)).1,
    (phase_bands_cover_dataset DAYS 26 27 (by decide) (by decide)).2.2.2.2.2.2.2.1⟩

theorem startTime_latched_unless_first_timestamp_zero_witness :
    (100 : ℚ) ≠ 0 ∧
      (animateFrames 50 1600 none (100 :: [116, 132])).map (fun f => f.startTime) =
        List.replicate (animateFrames 50 1600 none (100 :: [116, 132])).length 100 ∧
      (animateFrames 50 1600 none (100 :: [116, 132])).map (fun f => f.elapsed) =
        ((100 :: [116, 132]).take (animateFrames 50 1600 none (100 :: [116, 132])).length).map
          (fun t => t - 100) :=
  ⟨by norm_num,
    (startTime_latched_unless_first_timestamp_zero 50 1600 100 [116, 132] (by norm_num)).1,
    (startTime_latched_unless_first_timestamp_zero 50 1600 100 [116, 132] (by norm_num)).2.1⟩

end FiftyDays
